import Mathlib

/-!
Verification development for the carbon-emissions / multi-modal route
computation backend.

Numbers the program stores as IEEE floats are modelled as exact values of a
linear ordered field: `ℚ` for the executable arithmetic of the emission
service and of the route aggregation, `ℝ` for the trigonometric geodesy.
Python's `round(x, n)` (banker's rounding) is modelled exactly on those
values.  External network calls (geocoding search, road-route directions)
are modelled as oracle parameters: the functions that consume them take the
call's result (or the response table) as an argument.
-/

deriving instance DecidableEq for Except

namespace CarbonCalc

variable {α : Type*} [LinearOrderedField α] [FloorRing α]

/-- The integer Python's `round` maps `x` to: nearest integer, halves to the
even neighbour. -/
def round_half_even_int (x : α) : ℤ :=
  let f := Int.floor x
  if x - f < 1 / 2 then f
  else if 1 / 2 < x - f then f + 1
  else if f % 2 = 0 then f else f + 1

/-- Python's `round(x, n)`: round half to even at `n` decimal digits. -/
def pyround (x : α) (n : ℕ) : α :=
  (round_half_even_int (x * 10 ^ n) : α) / 10 ^ n

theorem round_half_even_int_intCast (k : ℤ) :
    round_half_even_int (k : α) = k := by
  unfold round_half_even_int
  simp

theorem abs_round_half_even_int_sub (x : α) :
    |(round_half_even_int x : α) - x| ≤ 1 / 2 := by
  simp only [round_half_even_int]
  have hfl : (Int.floor x : α) ≤ x := Int.floor_le x
  have hfu : x < Int.floor x + 1 := Int.lt_floor_add_one x
  split_ifs with h1 h2 h3
  · rw [abs_sub_comm, abs_of_nonneg (by linarith)]
    linarith
  · push_cast
    rw [abs_of_nonneg (by linarith)]
    linarith [not_lt.mp h1]
  · have heq : x - (Int.floor x : α) = 1 / 2 := le_antisymm (not_lt.mp h2) (not_lt.mp h1)
    rw [abs_sub_comm, abs_of_nonneg (by linarith)]
    linarith
  · have heq : x - (Int.floor x : α) = 1 / 2 := le_antisymm (not_lt.mp h2) (not_lt.mp h1)
    push_cast
    rw [abs_of_nonneg (by linarith)]
    linarith

theorem pyround_intCast_div (k : ℤ) (n : ℕ) :
    pyround ((k : α) / 10 ^ n) n = (k : α) / 10 ^ n := by
  have hne : (10 : α) ^ n ≠ 0 := by positivity
  unfold pyround
  rw [div_mul_cancel₀ _ hne, round_half_even_int_intCast]

theorem abs_pyround_sub (x : α) (n : ℕ) :
    |pyround x n - x| ≤ 1 / (2 * 10 ^ n) := by
  have hpos : (0 : α) < 10 ^ n := by positivity
  unfold pyround
  have h := abs_round_half_even_int_sub (α := α) (x * 10 ^ n)
  have : |(round_half_even_int (x * 10 ^ n) : α) / 10 ^ n - x|
      = |(round_half_even_int (x * 10 ^ n) : α) - x * 10 ^ n| / 10 ^ n := by
    rw [← abs_of_pos hpos, ← abs_div]
    congr 1
    field_simp
    ring
  rw [this]
  rw [div_le_div_iff₀ hpos (by positivity)]
  calc |(round_half_even_int (x * 10 ^ n) : α) - x * 10 ^ n| * (2 * 10 ^ n)
      ≤ (1 / 2) * (2 * 10 ^ n) := by
        apply mul_le_mul_of_nonneg_right h (by positivity)
    _ = 1 * 10 ^ n := by ring

/-- A value already on the grid of `n` decimal digits is fixed by `pyround`. -/
theorem pyround_eq_self {x : α} {n : ℕ} (h : ∃ k : ℤ, x = (k : α) / 10 ^ n) :
    pyround x n = x := by
  obtain ⟨k, rfl⟩ := h
  exact pyround_intCast_div k n

theorem pyround_is_grid (x : α) (n : ℕ) :
    ∃ k : ℤ, pyround x n = (k : α) / 10 ^ n :=
  ⟨round_half_even_int (x * 10 ^ n), rfl⟩

/-- A sum of values on the `n`-digit grid is itself fixed by `pyround`. -/
theorem pyround_sum_eq {l : List α} {n : ℕ}
    (h : ∀ x ∈ l, ∃ k : ℤ, x = (k : α) / 10 ^ n) :
    pyround l.sum n = l.sum := by
  apply pyround_eq_self
  induction l with
  | nil => exact ⟨0, by simp⟩
  | cons y ys ih =>
    obtain ⟨k, hk⟩ := h y (List.mem_cons_self y ys)
    obtain ⟨m, hm⟩ := ih fun x hx => h x (List.mem_cons_of_mem y hx)
    exact ⟨k + m, by push_cast; rw [List.sum_cons, hk, hm, add_div]⟩

/-! ## Transport modes and emission models (`app/models/emission.py`) -/

/-- `TransportMode` in `app/models/emission.py`. -/
inductive TransportMode : Type
  | land
  | sea
  | air
deriving DecidableEq, Repr

/-- `EmissionFactors` in `app/models/emission.py` (kg CO2 per tonne-km). -/
structure EmissionFactors (α : Type*) where
  land : α
  sea : α
  air : α
deriving DecidableEq, Repr

/-- The pydantic field defaults of `EmissionFactors`. -/
def default_emission_factors : EmissionFactors α :=
  { land := 0.062, sea := 0.016, air := 0.602 }

/-- `EmissionFactors.get_factor`. -/
def EmissionFactors.get_factor (f : EmissionFactors α) : TransportMode → α
  | .land => f.land
  | .sea => f.sea
  | .air => f.air

/-- `EmissionResult` in `app/models/emission.py`. -/
structure EmissionResult (α : Type*) where
  transport_mode : TransportMode
  distance_km : α
  weight_kg : α
  emission_kg_co2 : α
  emission_factor_used : α
deriving DecidableEq, Repr

/-- `EmissionComparisonResult` in `app/models/emission.py`. -/
structure EmissionComparisonResult (α : Type*) where
  land : EmissionResult α
  sea : EmissionResult α
  air : EmissionResult α
  most_efficient : TransportMode
  least_efficient : TransportMode
deriving DecidableEq, Repr

/-! ## The emission service (`app/services/emission_service.py`)

`EmissionService` carries one piece of state, its factor table (defaulting
to `default_emission_factors`); the service methods are modelled as
functions taking that table first.  A raised `ValueError` is modelled as
`Except.error` with the exception's message. -/

/-- `EmissionService.calculate_emission`. -/
def calculate_emission (factors : EmissionFactors α)
    (distance_km weight_kg : α) (transport_mode : TransportMode) :
    Except String (EmissionResult α) :=
  if distance_km < 0 then .error "Distance cannot be negative"
  else if weight_kg < 0 then .error "Weight cannot be negative"
  else
    let factor := factors.get_factor transport_mode
    let weight_tonnes := weight_kg / 1000
    let emission_kg_co2 := distance_km * weight_tonnes * factor
    .ok { transport_mode := transport_mode
          distance_km := pyround distance_km 2
          weight_kg := pyround weight_kg 2
          emission_kg_co2 := pyround emission_kg_co2 4
          emission_factor_used := factor }

/-- One step of a stable ascending insertion: the semantics of Python's
stable `sorted` on the short lists used here. -/
def ordered_insert {β γ : Type*} [LinearOrder γ] (key : β → γ) (x : β) :
    List β → List β
  | [] => [x]
  | y :: ys => if key x ≤ key y then x :: y :: ys else y :: ordered_insert key x ys

/-- Stable ascending sort by a key: the semantics of Python's `sorted`. -/
def stable_sort {β γ : Type*} [LinearOrder γ] (key : β → γ) : List β → List β
  | [] => []
  | x :: xs => ordered_insert key x (stable_sort key xs)

theorem stable_sort_three {β : Type*} (key : β → α) (x y z : β) :
    stable_sort key [x, y, z] =
      if key y ≤ key z then
        if key x ≤ key y then [x, y, z]
        else if key x ≤ key z then [y, x, z] else [y, z, x]
      else
        if key x ≤ key z then [x, z, y]
        else if key x ≤ key y then [z, x, y] else [z, y, x] := by
  have hunfold : stable_sort key [x, y, z]
      = ordered_insert key x (ordered_insert key y [z]) := by
    simp [stable_sort, ordered_insert]
  rw [hunfold]
  rcases le_or_lt (key y) (key z) with h1 | h1
  · rw [if_pos h1, show ordered_insert key y [z] = [y, z] from by
      simp [ordered_insert, h1]]
    rcases le_or_lt (key x) (key y) with h2 | h2
    · rw [if_pos h2]; simp [ordered_insert, h2]
    · rw [if_neg (not_le.mpr h2)]
      rcases le_or_lt (key x) (key z) with h3 | h3
      · rw [if_pos h3]; simp [ordered_insert, not_le.mpr h2, h3]
      · rw [if_neg (not_le.mpr h3)]
        simp [ordered_insert, not_le.mpr h2, not_le.mpr h3]
  · rw [if_neg (not_le.mpr h1), show ordered_insert key y [z] = [z, y] from by
      simp [ordered_insert, not_le.mpr h1]]
    rcases le_or_lt (key x) (key z) with h3 | h3
    · rw [if_pos h3]; simp [ordered_insert, h3]
    · rw [if_neg (not_le.mpr h3)]
      rcases le_or_lt (key x) (key y) with h2 | h2
      · rw [if_pos h2]; simp [ordered_insert, not_le.mpr h3, h2]
      · rw [if_neg (not_le.mpr h2)]
        simp [ordered_insert, not_le.mpr h3, not_le.mpr h2]

theorem headD_stable_sort_three {β : Type*} (key : β → α) (x y z dflt : β) :
    (stable_sort key [x, y, z]).headD dflt =
      if key x ≤ key y ∧ key x ≤ key z then x
      else if key y ≤ key z then y else z := by
  rw [stable_sort_three]
  split_ifs <;> simp_all <;> linarith

theorem getLastD_stable_sort_three {β : Type*} (key : β → α) (x y z dflt : β) :
    (stable_sort key [x, y, z]).getLastD dflt =
      if key y ≤ key z ∧ key x ≤ key z then z
      else if key x ≤ key y then y else x := by
  rw [stable_sort_three]
  split_ifs <;> simp_all <;> linarith

/-- `EmissionService.compare_transport_modes`.  The dict `results` keeps
insertion order land, sea, air; `sorted(..., key=emission)` is the stable
sort; `[0]`/`[-1]` of the (always non-empty) sorted list are modelled with
defaults that are never reached. -/
def compare_transport_modes (factors : EmissionFactors α)
    (distance_km weight_kg : α) :
    Except String (EmissionComparisonResult α) :=
  match calculate_emission factors distance_km weight_kg .land with
  | .error e => .error e
  | .ok land_result =>
  match calculate_emission factors distance_km weight_kg .sea with
  | .error e => .error e
  | .ok sea_result =>
  match calculate_emission factors distance_km weight_kg .air with
  | .error e => .error e
  | .ok air_result =>
    let sorted_by_emission := stable_sort (fun p => p.2.emission_kg_co2)
      [(TransportMode.land, land_result), (TransportMode.sea, sea_result),
        (TransportMode.air, air_result)]
    let most_efficient := (sorted_by_emission.headD (TransportMode.land, land_result)).1
    let least_efficient := (sorted_by_emission.getLastD (TransportMode.land, land_result)).1
    .ok { land := land_result, sea := sea_result, air := air_result,
          most_efficient := most_efficient, least_efficient := least_efficient }

/-- On non-negative inputs `calculate_emission` succeeds and returns the
rounded result of the tonne-km formula applied to the unrounded inputs. -/
theorem calculate_emission_ok (factors : EmissionFactors α)
    (distance_km weight_kg : α) (mode : TransportMode)
    (hd : 0 ≤ distance_km) (hw : 0 ≤ weight_kg) :
    calculate_emission factors distance_km weight_kg mode =
      .ok { transport_mode := mode
            distance_km := pyround distance_km 2
            weight_kg := pyround weight_kg 2
            emission_kg_co2 :=
              pyround (distance_km * (weight_kg / 1000) * factors.get_factor mode) 4
            emission_factor_used := factors.get_factor mode } := by
  unfold calculate_emission
  rw [if_neg (not_lt.mpr hd), if_neg (not_lt.mpr hw)]

/-- C5: for every non-negative `distance_km` and `weight_kg` and every mode,
`calculate_emission` returns `distance_km * (weight_kg/1000) * factor[mode]`
with the default factor table {land: 0.062, sea: 0.016, air: 0.602}
(overridable at construction: `factors` is arbitrary); in the returned
result distance and weight are rounded to 2 decimals and the emission to 4
decimals, while the unrounded inputs feed the internal computation. -/
theorem C5_calculate_emission_formula (factors : EmissionFactors α)
    (distance_km weight_kg : α) (mode : TransportMode)
    (hd : 0 ≤ distance_km) (hw : 0 ≤ weight_kg) :
    calculate_emission factors distance_km weight_kg mode =
      .ok { transport_mode := mode
            distance_km := pyround distance_km 2
            weight_kg := pyround weight_kg 2
            emission_kg_co2 :=
              pyround (distance_km * (weight_kg / 1000) * factors.get_factor mode) 4
            emission_factor_used := factors.get_factor mode } ∧
    (default_emission_factors : EmissionFactors α).get_factor .land = 0.062 ∧
    (default_emission_factors : EmissionFactors α).get_factor .sea = 0.016 ∧
    (default_emission_factors : EmissionFactors α).get_factor .air = 0.602 :=
  ⟨calculate_emission_ok factors distance_km weight_kg mode hd hw, rfl, rfl, rfl⟩

/-- C5 witness: the formula at `(1000 km, 5000 kg, land)` with the default
factors gives exactly 310.0 kg CO2. -/
theorem C5_calculate_emission_formula_witness :
    (0 : ℚ) ≤ 1000 ∧ (0 : ℚ) ≤ 5000 ∧
    calculate_emission (default_emission_factors) (1000 : ℚ) 5000 .land =
      .ok { transport_mode := .land, distance_km := 1000, weight_kg := 5000,
            emission_kg_co2 := 310, emission_factor_used := 0.062 } := by
  refine ⟨by norm_num, by norm_num, ?_⟩
  rw [(C5_calculate_emission_formula (default_emission_factors) (1000 : ℚ) 5000 .land
    (by norm_num) (by norm_num)).1]
  have e1 : pyround (1000 : ℚ) 2 = 1000 := pyround_eq_self ⟨100000, by norm_num⟩
  have e2 : pyround (5000 : ℚ) 2 = 5000 := pyround_eq_self ⟨500000, by norm_num⟩
  have e3 : pyround ((1000 : ℚ) * (5000 / 1000) * 0.062) 4 = 310 := by
    rw [show (1000 : ℚ) * (5000 / 1000) * 0.062 = 310 from by norm_num]
    exact pyround_eq_self ⟨3100000, by norm_num⟩
  simp only [default_emission_factors, EmissionFactors.get_factor]
  rw [e1, e2, e3]

/-- C6: `calculate_emission` raises the input-validation error exactly when
the distance or the weight is negative, and `calculate_emission(-1, 100,
land)` raises it with the distance message. -/
theorem C6_validation_error_iff (factors : EmissionFactors α)
    (distance_km weight_kg : α) (mode : TransportMode) :
    ((∃ msg, calculate_emission factors distance_km weight_kg mode = .error msg) ↔
      distance_km < 0 ∨ weight_kg < 0) ∧
    calculate_emission factors (-1) 100 .land = .error "Distance cannot be negative" := by
  constructor
  · constructor
    · rintro ⟨msg, hmsg⟩
      by_contra hcon
      push_neg at hcon
      rw [calculate_emission_ok factors distance_km weight_kg mode hcon.1 hcon.2] at hmsg
      exact Except.noConfusion hmsg
    · intro h
      unfold calculate_emission
      rcases lt_or_le distance_km 0 with hd | hd
      · exact ⟨"Distance cannot be negative", by rw [if_pos hd]⟩
      · rcases h with h | h
        · exact absurd h (not_lt.mpr hd)
        · exact ⟨"Weight cannot be negative", by rw [if_neg (not_lt.mpr hd), if_pos h]⟩
  · unfold calculate_emission
    rw [if_pos (by norm_num)]

/-- Modelled from the spec (for comparison with the code): the first mode in
the fixed input order (land, sea, air) attaining the minimal emission. -/
def spec_first_min_mode (el es ea : α) : TransportMode :=
  if el ≤ es ∧ el ≤ ea then .land
  else if es ≤ ea then .sea
  else .air

/-- Modelled from the spec (for comparison with the code): the last mode in
the fixed input order (land, sea, air) attaining the maximal emission. -/
def spec_last_max_mode (el es ea : α) : TransportMode :=
  if es ≤ ea ∧ el ≤ ea then .air
  else if el ≤ es then .sea
  else .land

/-- C7: on non-negative inputs `compare_transport_modes` returns the
per-mode emission results of the tonne-km formula, its `most_efficient` is
the first mode of the stable order (land, sea, air) attaining the minimal
emission, and its `least_efficient` the last mode attaining the maximal
emission (ascending stable sort semantics). -/
theorem C7_compare_modes (factors : EmissionFactors α) (distance_km weight_kg : α)
    (hd : 0 ≤ distance_km) (hw : 0 ≤ weight_kg) :
    compare_transport_modes factors distance_km weight_kg =
      .ok { land := { transport_mode := .land, distance_km := pyround distance_km 2,
                      weight_kg := pyround weight_kg 2,
                      emission_kg_co2 :=
                        pyround (distance_km * (weight_kg / 1000) * factors.land) 4,
                      emission_factor_used := factors.land }
            sea := { transport_mode := .sea, distance_km := pyround distance_km 2,
                     weight_kg := pyround weight_kg 2,
                     emission_kg_co2 :=
                       pyround (distance_km * (weight_kg / 1000) * factors.sea) 4,
                     emission_factor_used := factors.sea }
            air := { transport_mode := .air, distance_km := pyround distance_km 2,
                     weight_kg := pyround weight_kg 2,
                     emission_kg_co2 :=
                       pyround (distance_km * (weight_kg / 1000) * factors.air) 4,
                     emission_factor_used := factors.air }
            most_efficient := spec_first_min_mode
              (pyround (distance_km * (weight_kg / 1000) * factors.land) 4)
              (pyround (distance_km * (weight_kg / 1000) * factors.sea) 4)
              (pyround (distance_km * (weight_kg / 1000) * factors.air) 4)
            least_efficient := spec_last_max_mode
              (pyround (distance_km * (weight_kg / 1000) * factors.land) 4)
              (pyround (distance_km * (weight_kg / 1000) * factors.sea) 4)
              (pyround (distance_km * (weight_kg / 1000) * factors.air) 4) } := by
  unfold compare_transport_modes
  rw [calculate_emission_ok factors distance_km weight_kg .land hd hw,
    calculate_emission_ok factors distance_km weight_kg .sea hd hw,
    calculate_emission_ok factors distance_km weight_kg .air hd hw]
  simp only [headD_stable_sort_three, getLastD_stable_sort_three,
    spec_first_min_mode, spec_last_max_mode, EmissionFactors.get_factor]
  dsimp only
  split_ifs <;> rfl

/-- C7 witness: `compare_modes(1000, 5000)` with the default factors yields
land 310.0 kg, sea 80.0 kg, air 3010.0 kg, most_efficient = sea and
least_efficient = air. -/
theorem C7_compare_modes_witness :
    (0 : ℚ) ≤ 1000 ∧ (0 : ℚ) ≤ 5000 ∧
    compare_transport_modes (default_emission_factors) (1000 : ℚ) 5000 =
      .ok { land := { transport_mode := .land, distance_km := 1000, weight_kg := 5000,
                      emission_kg_co2 := 310, emission_factor_used := 0.062 }
            sea := { transport_mode := .sea, distance_km := 1000, weight_kg := 5000,
                     emission_kg_co2 := 80, emission_factor_used := 0.016 }
            air := { transport_mode := .air, distance_km := 1000, weight_kg := 5000,
                     emission_kg_co2 := 3010, emission_factor_used := 0.602 }
            most_efficient := .sea
            least_efficient := .air } := by
  refine ⟨by norm_num, by norm_num, ?_⟩
  rw [C7_compare_modes (default_emission_factors) (1000 : ℚ) 5000
    (by norm_num) (by norm_num)]
  have e1 : pyround (1000 : ℚ) 2 = 1000 := pyround_eq_self ⟨100000, by norm_num⟩
  have e2 : pyround (5000 : ℚ) 2 = 5000 := pyround_eq_self ⟨500000, by norm_num⟩
  have eL : pyround ((1000 : ℚ) * (5000 / 1000) * 0.062) 4 = 310 := by
    rw [show (1000 : ℚ) * (5000 / 1000) * 0.062 = 310 from by norm_num]
    exact pyround_eq_self ⟨3100000, by norm_num⟩
  have eS : pyround ((1000 : ℚ) * (5000 / 1000) * 0.016) 4 = 80 := by
    rw [show (1000 : ℚ) * (5000 / 1000) * 0.016 = 80 from by norm_num]
    exact pyround_eq_self ⟨800000, by norm_num⟩
  have eA : pyround ((1000 : ℚ) * (5000 / 1000) * 0.602) 4 = 3010 := by
    rw [show (1000 : ℚ) * (5000 / 1000) * 0.602 = 3010 from by norm_num]
    exact pyround_eq_self ⟨30100000, by norm_num⟩
  simp only [default_emission_factors]
  rw [e1, e2, eL, eS, eA]
  norm_num [spec_first_min_mode, spec_last_max_mode]

/-! ## Geodesy primitives (`RouteService.haversine_distance` and
`RouteService._interpolate_great_circle` in `app/services/route_service.py`) -/

/-- Geographic coordinates (`Coordinates` in `app/models/route.py`). -/
structure Coordinates (α : Type*) where
  latitude : α
  longitude : α
deriving DecidableEq, Repr

/-- `math.radians`. -/
noncomputable def radians (x : ℝ) : ℝ := x * Real.pi / 180

/-- `math.degrees`. -/
noncomputable def degrees (x : ℝ) : ℝ := x * 180 / Real.pi

theorem degrees_radians (x : ℝ) : degrees (radians x) = x := by
  unfold degrees radians
  field_simp

/-- `math.atan2` (the C convention, total on real arguments). -/
noncomputable def atan2 (y x : ℝ) : ℝ :=
  if 0 < x then Real.arctan (y / x)
  else if x < 0 then
    (if 0 ≤ y then Real.arctan (y / x) + Real.pi else Real.arctan (y / x) - Real.pi)
  else
    (if 0 < y then Real.pi / 2 else if y < 0 then -(Real.pi / 2) else 0)

theorem atan2_zero_of_pos {x : ℝ} (hx : 0 < x) : atan2 0 x = 0 := by
  unfold atan2
  rw [if_pos hx, zero_div, Real.arctan_zero]

theorem atan2_nonneg {y x : ℝ} (hy : 0 ≤ y) (hx : 0 ≤ x) : 0 ≤ atan2 y x := by
  unfold atan2
  rcases lt_or_eq_of_le hx with hx' | hx'
  · rw [if_pos hx']
    have h := Real.arctan_strictMono.monotone (by positivity : (0 : ℝ) ≤ y / x)
    rwa [Real.arctan_zero] at h
  · rw [if_neg (by rw [← hx']; exact lt_irrefl 0), if_neg (by rw [← hx']; exact lt_irrefl 0)]
    rcases lt_or_eq_of_le hy with hy' | hy'
    · rw [if_pos hy']
      positivity
    · rw [if_neg (by rw [← hy']; exact lt_irrefl 0), if_neg (by rw [← hy']; exact lt_irrefl 0)]

/-- `atan2` is invariant under scaling both arguments by a positive factor. -/
theorem atan2_pos_smul {k y x : ℝ} (hk : 0 < k) : atan2 (k * y) (k * x) = atan2 y x := by
  unfold atan2
  have c1 : (0 < k * x) ↔ (0 < x) := ⟨fun h => by nlinarith, fun h => by positivity⟩
  have c2 : (k * x < 0) ↔ (x < 0) := ⟨fun h => by nlinarith, fun h => by nlinarith⟩
  have c3 : (0 ≤ k * y) ↔ (0 ≤ y) := ⟨fun h => by nlinarith, fun h => by positivity⟩
  have c4 : (0 < k * y) ↔ (0 < y) := ⟨fun h => by nlinarith, fun h => by positivity⟩
  have c5 : (k * y < 0) ↔ (y < 0) := ⟨fun h => by nlinarith, fun h => by nlinarith⟩
  rw [mul_div_mul_left y x (ne_of_gt hk)]
  simp only [c1, c2, c3, c4, c5]

/-- On the unit circle `atan2` recovers the angle from its sine and cosine. -/
theorem atan2_sin_cos {θ : ℝ} (h1 : -Real.pi < θ) (h2 : θ ≤ Real.pi) :
    atan2 (Real.sin θ) (Real.cos θ) = θ := by
  have hπ := Real.pi_pos
  unfold atan2
  rcases lt_trichotomy 0 (Real.cos θ) with hc | hc | hc
  · rw [if_pos hc, ← Real.tan_eq_sin_div_cos]
    apply Real.arctan_tan
    · by_contra hcon
      push_neg at hcon
      have hd := Real.cos_nonpos_of_pi_div_two_le_of_le (x := -θ) (by linarith) (by linarith)
      rw [Real.cos_neg] at hd
      linarith
    · by_contra hcon
      push_neg at hcon
      have hd := Real.cos_nonpos_of_pi_div_two_le_of_le hcon (by linarith)
      linarith
  · rw [if_neg (by rw [← hc]; exact lt_irrefl 0), if_neg (by rw [← hc]; exact lt_irrefl 0)]
    obtain ⟨k, hk⟩ := Real.cos_eq_zero_iff.mp hc.symm
    rw [hk] at h1 h2
    have hlo : (-1 : ℤ) ≤ k := by
      have h' : (-2 : ℝ) < 2 * (k : ℝ) + 1 := by nlinarith
      have h'' : (-2 : ℤ) < k := by exact_mod_cast (by linarith : (-2 : ℝ) < (k : ℝ))
      omega
    have hhi : k ≤ 0 := by
      have h' : 2 * (k : ℝ) + 1 ≤ 2 := by nlinarith
      have h'' : (k : ℝ) < 1 := by linarith
      exact_mod_cast Int.lt_add_one_iff.mp (by exact_mod_cast h'')
    interval_cases k
    · have hθ : θ = -(Real.pi / 2) := by rw [hk]; push_cast; ring
      rw [hθ, Real.sin_neg, Real.sin_pi_div_two]
      norm_num [hπ]
    · have hθ : θ = Real.pi / 2 := by rw [hk]; push_cast; ring
      rw [hθ, Real.sin_pi_div_two]
      norm_num [hπ]
  · rw [if_neg (by linarith), if_pos hc]
    rcases le_or_lt 0 (Real.sin θ) with hs | hs
    · rw [if_pos hs]
      have hθ : Real.pi / 2 < θ := by
        rcases le_or_lt θ (Real.pi / 2) with hle | hlt
        · exfalso
          rcases le_or_lt (-(Real.pi / 2)) θ with ha | hb
          · have := Real.cos_nonneg_of_mem_Icc ⟨ha, hle⟩
            linarith
          · have hpos : 0 < Real.sin (-θ) :=
              Real.sin_pos_of_pos_of_lt_pi (by linarith) (by linarith)
            rw [Real.sin_neg] at hpos
            linarith
        · exact hlt
      have htan : Real.sin θ / Real.cos θ = Real.tan (θ - Real.pi) := by
        rw [Real.tan_eq_sin_div_cos, Real.sin_sub_pi, Real.cos_sub_pi, neg_div_neg_eq]
      rw [htan, Real.arctan_tan (by linarith) (by linarith)]
      ring
    · rw [if_neg (not_le.mpr hs)]
      have hθ : θ < -(Real.pi / 2) := by
        rcases le_or_lt (-(Real.pi / 2)) θ with ha | hb
        · exfalso
          rcases le_or_lt θ (Real.pi / 2) with hle | hgt
          · have := Real.cos_nonneg_of_mem_Icc ⟨ha, hle⟩
            linarith
          · have hpos : 0 ≤ Real.sin θ :=
              Real.sin_nonneg_of_nonneg_of_le_pi (by linarith) h2
            linarith
        · exact hb
      have htan : Real.sin θ / Real.cos θ = Real.tan (θ + Real.pi) := by
        rw [Real.tan_eq_sin_div_cos, Real.sin_add_pi, Real.cos_add_pi, neg_div_neg_eq]
      rw [htan, Real.arctan_tan (by linarith) (by linarith)]
      ring

/-- The bracketed quantity `a` of `RouteService.haversine_distance`. -/
noncomputable def haversine_a (origin destination : Coordinates ℝ) : ℝ :=
  Real.sin (radians (destination.latitude - origin.latitude) / 2) ^ 2 +
    Real.cos (radians origin.latitude) * Real.cos (radians destination.latitude) *
      Real.sin (radians (destination.longitude - origin.longitude) / 2) ^ 2

/-- `RouteService.haversine_distance`: haversine formula on a sphere of
radius 6371 km (`c = 2 * atan2(sqrt a, sqrt (1 - a))`, result `R * c`). -/
noncomputable def haversine_distance (origin destination : Coordinates ℝ) : ℝ :=
  6371.0 * (2 * atan2 (Real.sqrt (haversine_a origin destination))
    (Real.sqrt (1 - haversine_a origin destination)))

theorem haversine_a_self (a : Coordinates ℝ) : haversine_a a a = 0 := by
  simp [haversine_a, radians]

theorem haversine_a_comm (a b : Coordinates ℝ) : haversine_a a b = haversine_a b a := by
  unfold haversine_a
  have h1 : radians (a.latitude - b.latitude) = -(radians (b.latitude - a.latitude)) := by
    unfold radians; ring
  have h2 : radians (a.longitude - b.longitude) = -(radians (b.longitude - a.longitude)) := by
    unfold radians; ring
  rw [h1, h2]
  simp only [neg_div, Real.sin_neg, neg_sq]
  ring

theorem haversine_a_nonneg_of_cos (a b : Coordinates ℝ)
    (h : 0 ≤ Real.cos (radians a.latitude) * Real.cos (radians b.latitude)) :
    0 ≤ haversine_a a b := by
  unfold haversine_a
  positivity

theorem haversine_nonneg (a b : Coordinates ℝ) : 0 ≤ haversine_distance a b := by
  unfold haversine_distance
  have h := atan2_nonneg (Real.sqrt_nonneg (haversine_a a b))
    (Real.sqrt_nonneg (1 - haversine_a a b))
  positivity

theorem haversine_self (a : Coordinates ℝ) : haversine_distance a a = 0 := by
  unfold haversine_distance
  rw [haversine_a_self, Real.sqrt_zero, sub_zero, Real.sqrt_one,
    atan2_zero_of_pos one_pos]
  ring

theorem haversine_comm (a b : Coordinates ℝ) :
    haversine_distance a b = haversine_distance b a := by
  unfold haversine_distance
  rw [haversine_a_comm]

/-- C9: the great-circle (haversine, radius 6371 km) distance vanishes on
equal endpoints and is symmetric in its arguments. -/
theorem C9_haversine_self_and_symm (a b : Coordinates ℝ) :
    haversine_distance a a = 0 ∧ haversine_distance a b = haversine_distance b a :=
  ⟨haversine_self a, haversine_comm a b⟩

theorem radians_sub (x y : ℝ) : radians x - radians y = radians (x - y) := by
  unfold radians
  ring

/-- The body of `_interpolate_great_circle`'s loop at one fraction `f`
(`lat1 … lon2` in radians, `d` the angular separation); yields one
`[lon, lat]` point in degrees. -/
noncomputable def interpolate_point (lat1 lon1 lat2 lon2 d f : ℝ) : List ℝ :=
  if d = 0 then [degrees lon1, degrees lat1]
  else
    let A := Real.sin ((1 - f) * d) / Real.sin d
    let B := Real.sin (f * d) / Real.sin d
    let x := A * Real.cos lat1 * Real.cos lon1 + B * Real.cos lat2 * Real.cos lon2
    let y := A * Real.cos lat1 * Real.sin lon1 + B * Real.cos lat2 * Real.sin lon2
    let z := A * Real.sin lat1 + B * Real.sin lat2
    let lat := atan2 z (Real.sqrt (x ^ 2 + y ^ 2))
    let lon := atan2 y x
    [degrees lon, degrees lat]

/-- `RouteService._interpolate_great_circle`.  When `num_points = 0` the
loop body's `f = i / num_points` raises `ZeroDivisionError` on its first
iteration, modelled as `none`. -/
noncomputable def interpolate_great_circle (origin destination : Coordinates ℝ)
    (num_points : ℕ) : Option (List (List ℝ)) :=
  if num_points = 0 then none
  else
    let lat1 := radians origin.latitude
    let lon1 := radians origin.longitude
    let lat2 := radians destination.latitude
    let lon2 := radians destination.longitude
    let d := 2 * Real.arcsin (Real.sqrt
      (Real.sin ((lat2 - lat1) / 2) ^ 2 +
        Real.cos lat1 * Real.cos lat2 * Real.sin ((lon2 - lon1) / 2) ^ 2))
    some ((List.range (num_points + 1)).map fun (i : ℕ) =>
      interpolate_point lat1 lon1 lat2 lon2 d ((i : ℝ) / (num_points : ℝ)))

/-- The angular separation `d` computed by `_interpolate_great_circle`. -/
noncomputable def angular_distance (origin destination : Coordinates ℝ) : ℝ :=
  2 * Real.arcsin (Real.sqrt (haversine_a origin destination))

theorem interpolate_great_circle_eq (o dst : Coordinates ℝ) (n : ℕ) (hn : n ≠ 0) :
    interpolate_great_circle o dst n = some ((List.range (n + 1)).map fun (i : ℕ) =>
      interpolate_point (radians o.latitude) (radians o.longitude)
        (radians dst.latitude) (radians dst.longitude)
        (angular_distance o dst) ((i : ℝ) / (n : ℝ))) := by
  unfold angular_distance haversine_a
  simp only [interpolate_great_circle, if_neg hn]
  rw [radians_sub, radians_sub]

theorem angular_distance_nonneg (o dst : Coordinates ℝ) :
    0 ≤ angular_distance o dst := by
  unfold angular_distance
  have h := Real.arcsin_nonneg.mpr (Real.sqrt_nonneg (haversine_a o dst))
  linarith

/-- Coordinates strictly inside the valid ranges (poles and the antimeridian
longitude `-180` excluded). -/
def InRangeStrict (c : Coordinates ℝ) : Prop :=
  -90 < c.latitude ∧ c.latitude < 90 ∧ -180 < c.longitude ∧ c.longitude ≤ 180

theorem radians_lat_bounds {c : Coordinates ℝ} (h : InRangeStrict c) :
    -(Real.pi / 2) < radians c.latitude ∧ radians c.latitude < Real.pi / 2 := by
  obtain ⟨h1, h2, -, -⟩ := h
  have hπ := Real.pi_pos
  unfold radians
  constructor <;> nlinarith

theorem radians_lon_bounds {c : Coordinates ℝ} (h : InRangeStrict c) :
    -Real.pi < radians c.longitude ∧ radians c.longitude ≤ Real.pi := by
  obtain ⟨-, -, h3, h4⟩ := h
  have hπ := Real.pi_pos
  unfold radians
  constructor <;> nlinarith

theorem cos_radians_lat_pos {c : Coordinates ℝ} (h : InRangeStrict c) :
    0 < Real.cos (radians c.latitude) :=
  Real.cos_pos_of_mem_Ioo ⟨(radians_lat_bounds h).1, (radians_lat_bounds h).2⟩

/-- First loop iteration (`f = 0`) of the slerp: returns the origin point
exactly, given in-range origin angles and `0 ≤ d < π`. -/
theorem interpolate_point_zero (lat1 lon1 lat2 lon2 d : ℝ)
    (hlat : -(Real.pi / 2) < lat1 ∧ lat1 < Real.pi / 2)
    (hlon : -Real.pi < lon1 ∧ lon1 ≤ Real.pi)
    (hd0 : 0 ≤ d) (hdπ : d < Real.pi) :
    interpolate_point lat1 lon1 lat2 lon2 d 0 = [degrees lon1, degrees lat1] := by
  have hπ := Real.pi_pos
  rcases eq_or_lt_of_le hd0 with hd | hd
  · unfold interpolate_point
    rw [if_pos hd.symm]
  · have hsd : 0 < Real.sin d := Real.sin_pos_of_pos_of_lt_pi hd hdπ
    have hcos1 : 0 < Real.cos lat1 := Real.cos_pos_of_mem_Ioo ⟨hlat.1, hlat.2⟩
    simp only [interpolate_point, if_neg (ne_of_gt hd).symm]
    rw [show (1 - (0 : ℝ)) * d = d by ring, zero_mul, Real.sin_zero, zero_div,
      div_self (ne_of_gt hsd)]
    rw [show (1 : ℝ) * Real.cos lat1 * Real.cos lon1 + 0 * Real.cos lat2 * Real.cos lon2
        = Real.cos lat1 * Real.cos lon1 by ring]
    rw [show (1 : ℝ) * Real.cos lat1 * Real.sin lon1 + 0 * Real.cos lat2 * Real.sin lon2
        = Real.cos lat1 * Real.sin lon1 by ring]
    rw [show (1 : ℝ) * Real.sin lat1 + 0 * Real.sin lat2 = Real.sin lat1 by ring]
    have hxy : (Real.cos lat1 * Real.cos lon1) ^ 2 + (Real.cos lat1 * Real.sin lon1) ^ 2
        = (Real.cos lat1) ^ 2 := by
      have h := Real.sin_sq_add_cos_sq lon1
      nlinarith [h]
    rw [hxy, Real.sqrt_sq (le_of_lt hcos1)]
    rw [atan2_sin_cos (by linarith) (by linarith)]
    rw [atan2_pos_smul hcos1, atan2_sin_cos hlon.1 hlon.2]
    split_ifs <;> rfl

/-- Last loop iteration (`f = 1`) of the slerp: returns the destination
point exactly, given in-range destination angles and `0 < d < π`. -/
theorem interpolate_point_one (lat1 lon1 lat2 lon2 d : ℝ)
    (hlat : -(Real.pi / 2) < lat2 ∧ lat2 < Real.pi / 2)
    (hlon : -Real.pi < lon2 ∧ lon2 ≤ Real.pi)
    (hd0 : 0 < d) (hdπ : d < Real.pi) :
    interpolate_point lat1 lon1 lat2 lon2 d 1 = [degrees lon2, degrees lat2] := by
  have hπ := Real.pi_pos
  have hsd : 0 < Real.sin d := Real.sin_pos_of_pos_of_lt_pi hd0 hdπ
  have hcos2 : 0 < Real.cos lat2 := Real.cos_pos_of_mem_Ioo ⟨hlat.1, hlat.2⟩
  simp only [interpolate_point, if_neg (ne_of_gt hd0).symm]
  rw [show (1 - (1 : ℝ)) * d = 0 by ring, Real.sin_zero, zero_div, one_mul,
    div_self (ne_of_gt hsd)]
  rw [show (0 : ℝ) * Real.cos lat1 * Real.cos lon1 + 1 * Real.cos lat2 * Real.cos lon2
      = Real.cos lat2 * Real.cos lon2 by ring]
  rw [show (0 : ℝ) * Real.cos lat1 * Real.sin lon1 + 1 * Real.cos lat2 * Real.sin lon2
      = Real.cos lat2 * Real.sin lon2 by ring]
  rw [show (0 : ℝ) * Real.sin lat1 + 1 * Real.sin lat2 = Real.sin lat2 by ring]
  have hxy : (Real.cos lat2 * Real.cos lon2) ^ 2 + (Real.cos lat2 * Real.sin lon2) ^ 2
      = (Real.cos lat2) ^ 2 := by
    have h := Real.sin_sq_add_cos_sq lon2
    nlinarith [h]
  rw [hxy, Real.sqrt_sq (le_of_lt hcos2)]
  rw [atan2_sin_cos (by linarith) (by linarith)]
  rw [atan2_pos_smul hcos2, atan2_sin_cos hlon.1 hlon.2]
  rw [if_neg hd0.ne']

/-- For in-range coordinates a vanishing angular separation forces equal
coordinates. -/
theorem angular_distance_eq_zero_imp {o dst : Coordinates ℝ}
    (ho : InRangeStrict o) (hdst : InRangeStrict dst)
    (h : angular_distance o dst = 0) : o = dst := by
  have hπ := Real.pi_pos
  have hco : 0 < Real.cos (radians o.latitude) := cos_radians_lat_pos ho
  have hcd : 0 < Real.cos (radians dst.latitude) := cos_radians_lat_pos hdst
  have hA_nonneg : 0 ≤ haversine_a o dst :=
    haversine_a_nonneg_of_cos o dst (le_of_lt (mul_pos hco hcd))
  have hA_zero : haversine_a o dst = 0 := by
    by_contra hne
    have hpos : 0 < haversine_a o dst := lt_of_le_of_ne hA_nonneg (Ne.symm hne)
    have h1 : 0 < Real.arcsin (Real.sqrt (haversine_a o dst)) :=
      Real.arcsin_pos.mpr (Real.sqrt_pos.mpr hpos)
    unfold angular_distance at h
    linarith
  have hterm1 : Real.sin (radians (dst.latitude - o.latitude) / 2) ^ 2 = 0 ∧
      Real.cos (radians o.latitude) * Real.cos (radians dst.latitude) *
        Real.sin (radians (dst.longitude - o.longitude) / 2) ^ 2 = 0 := by
    unfold haversine_a at hA_zero
    have hs1 : 0 ≤ Real.sin (radians (dst.latitude - o.latitude) / 2) ^ 2 := sq_nonneg _
    have hs2 : 0 ≤ Real.cos (radians o.latitude) * Real.cos (radians dst.latitude) *
        Real.sin (radians (dst.longitude - o.longitude) / 2) ^ 2 := by positivity
    constructor <;> linarith
  have hlat_eq : dst.latitude = o.latitude := by
    have hsin : Real.sin (radians (dst.latitude - o.latitude) / 2) = 0 :=
      pow_eq_zero_iff (n := 2) (by norm_num) |>.mp hterm1.1
    have hb1 : -Real.pi < radians (dst.latitude - o.latitude) / 2 := by
      obtain ⟨ho1, ho2, -, -⟩ := ho
      obtain ⟨hd1, hd2, -, -⟩ := hdst
      unfold radians
      nlinarith
    have hb2 : radians (dst.latitude - o.latitude) / 2 < Real.pi := by
      obtain ⟨ho1, ho2, -, -⟩ := ho
      obtain ⟨hd1, hd2, -, -⟩ := hdst
      unfold radians
      nlinarith
    have hz := (Real.sin_eq_zero_iff_of_lt_of_lt hb1 hb2).mp hsin
    have : radians (dst.latitude - o.latitude) = 0 := by linarith
    unfold radians at this
    have := mul_eq_zero.mp (by linarith : (dst.latitude - o.latitude) * Real.pi = 0)
    rcases this with h' | h'
    · linarith [sub_eq_zero.mp h']
    · exact absurd h' (ne_of_gt hπ)
  have hlon_eq : dst.longitude = o.longitude := by
    have hsin2 : Real.sin (radians (dst.longitude - o.longitude) / 2) ^ 2 = 0 := by
      rcases mul_eq_zero.mp hterm1.2 with h' | h'
      · exact absurd h' (ne_of_gt (mul_pos hco hcd))
      · exact h'
    have hsin : Real.sin (radians (dst.longitude - o.longitude) / 2) = 0 :=
      pow_eq_zero_iff (n := 2) (by norm_num) |>.mp hsin2
    have hb1 : -Real.pi < radians (dst.longitude - o.longitude) / 2 := by
      obtain ⟨-, -, ho3, ho4⟩ := ho
      obtain ⟨-, -, hd3, hd4⟩ := hdst
      unfold radians
      nlinarith
    have hb2 : radians (dst.longitude - o.longitude) / 2 < Real.pi := by
      obtain ⟨-, -, ho3, ho4⟩ := ho
      obtain ⟨-, -, hd3, hd4⟩ := hdst
      unfold radians
      nlinarith
    have hz := (Real.sin_eq_zero_iff_of_lt_of_lt hb1 hb2).mp hsin
    have : radians (dst.longitude - o.longitude) = 0 := by linarith
    unfold radians at this
    have := mul_eq_zero.mp (by linarith : (dst.longitude - o.longitude) * Real.pi = 0)
    rcases this with h' | h'
    · linarith [sub_eq_zero.mp h']
    · exact absurd h' (ne_of_gt hπ)
  cases o
  cases dst
  simp_all

theorem angular_distance_self (o : Coordinates ℝ) : angular_distance o o = 0 := by
  unfold angular_distance
  rw [haversine_a_self, Real.sqrt_zero, Real.arcsin_zero]
  ring

theorem haversine_a_same_lon (lat1 lat2 lon : ℝ) :
    haversine_a ⟨lat1, lon⟩ ⟨lat2, lon⟩ = Real.sin (radians (lat2 - lat1) / 2) ^ 2 := by
  simp [haversine_a, radians]

theorem abs_sin_eq_sin_abs {x : ℝ} (hx : |x| ≤ Real.pi) : |Real.sin x| = Real.sin |x| := by
  rcases le_or_lt 0 x with h | h
  · rw [abs_of_nonneg h] at hx ⊢
    rw [abs_of_nonneg (Real.sin_nonneg_of_nonneg_of_le_pi h hx)]
  · rw [abs_of_neg h] at hx ⊢
    have h1 : 0 ≤ Real.sin (-x) :=
      Real.sin_nonneg_of_nonneg_of_le_pi (by linarith) hx
    have h2 : Real.sin x ≤ 0 := by
      rw [Real.sin_neg] at h1
      linarith
    rw [abs_of_nonpos h2, Real.sin_neg]

theorem angular_distance_same_lon (lat1 lat2 lon : ℝ)
    (h : |radians (lat2 - lat1)| ≤ Real.pi) :
    angular_distance ⟨lat1, lon⟩ ⟨lat2, lon⟩ = |radians (lat2 - lat1)| := by
  have hπ := Real.pi_pos
  unfold angular_distance
  rw [haversine_a_same_lon, Real.sqrt_sq_eq_abs]
  have habs2 : |radians (lat2 - lat1) / 2| = |radians (lat2 - lat1)| / 2 := by
    rw [abs_div, abs_two]
  have habs : |radians (lat2 - lat1) / 2| ≤ Real.pi := by
    rw [habs2]
    linarith [abs_nonneg (radians (lat2 - lat1))]
  rw [abs_sin_eq_sin_abs habs]
  rw [Real.arcsin_sin
    (by rw [habs2]; linarith [abs_nonneg (radians (lat2 - lat1))])
    (by rw [habs2]; linarith)]
  rw [habs2]
  ring

theorem atan2_sqrt_arcsin {a : ℝ} (h0 : 0 ≤ a) (h1 : a ≤ 1) :
    atan2 (Real.sqrt a) (Real.sqrt (1 - a)) = Real.arcsin (Real.sqrt a) := by
  rcases eq_or_lt_of_le h1 with heq | hlt
  · subst heq
    rw [show (1 : ℝ) - 1 = 0 by norm_num, Real.sqrt_zero, Real.sqrt_one]
    unfold atan2
    rw [if_neg (lt_irrefl 0), if_neg (lt_irrefl 0), if_pos one_pos, Real.arcsin_one]
  · have hx : 0 < Real.sqrt (1 - a) := Real.sqrt_pos.mpr (by linarith)
    have hne : (1 : ℝ) - a ≠ 0 := ne_of_gt (by linarith)
    unfold atan2
    rw [if_pos hx]
    rw [Real.arctan_eq_arcsin]
    congr 1
    rw [div_pow, Real.sq_sqrt h0, Real.sq_sqrt (by linarith)]
    rw [show (1 : ℝ) + a / (1 - a) = 1 / (1 - a) by field_simp]
    rw [show Real.sqrt (1 / (1 - a)) = 1 / Real.sqrt (1 - a) by
      rw [one_div, one_div, Real.sqrt_inv]]
    field_simp

/-- When `a ∈ [0, 1]` the haversine `2 * atan2(√a, √(1-a))` agrees with the
slerp's `2 * arcsin √a`. -/
theorem haversine_eq_angular (o dst : Coordinates ℝ)
    (h0 : 0 ≤ haversine_a o dst) (h1 : haversine_a o dst ≤ 1) :
    haversine_distance o dst = 6371.0 * angular_distance o dst := by
  unfold haversine_distance angular_distance
  rw [atan2_sqrt_arcsin h0 h1]

/-- Exact haversine distance between two points on one meridian. -/
theorem haversine_distance_same_lon (lat1 lat2 lon : ℝ)
    (h : |radians (lat2 - lat1)| ≤ Real.pi) :
    haversine_distance ⟨lat1, lon⟩ ⟨lat2, lon⟩ = 6371.0 * |radians (lat2 - lat1)| := by
  rw [haversine_eq_angular _ _ (by rw [haversine_a_same_lon]; positivity)
    (by rw [haversine_a_same_lon]; exact Real.sin_sq_le_one _),
    angular_distance_same_lon _ _ _ h]

/-- C8 counterexample: called with `n = 0` the interpolation does not return
`n + 1 = 1` points ending at the destination: the loop body divides `i` by
`num_points = 0` (`ZeroDivisionError`), modelled as `none`. -/
theorem C8_interpolate_counterexample :
    interpolate_great_circle ⟨0, 0⟩ ⟨10, 0⟩ 0 = none := rfl

/-- C8 (amended): for every `n ≥ 1` and every pair of coordinates strictly
inside the valid ranges whose angular separation is less than π,
`interpolate_great_circle` returns exactly `n + 1` `[lon, lat]` points, the
first equal to the origin and the last equal to the destination, and in the
degenerate case `a = b` every point equals `a` (no division by zero). -/
theorem C8_interpolate_endpoints (o dst : Coordinates ℝ) (n : ℕ) (hn : 1 ≤ n)
    (ho : InRangeStrict o) (hdst : InRangeStrict dst)
    (hsep : angular_distance o dst < Real.pi) :
    ∃ pts, interpolate_great_circle o dst n = some pts ∧
      pts.length = n + 1 ∧
      pts.head? = some [o.longitude, o.latitude] ∧
      pts.getLast? = some [dst.longitude, dst.latitude] ∧
      (o = dst → ∀ p ∈ pts, p = [o.longitude, o.latitude]) := by
  have hn0 : n ≠ 0 := by omega
  have hd0 : 0 ≤ angular_distance o dst := angular_distance_nonneg o dst
  rw [interpolate_great_circle_eq o dst n hn0]
  refine ⟨_, rfl, ?_, ?_, ?_, ?_⟩
  · simp
  · have hr : List.range (n + 1) = 0 :: List.map Nat.succ (List.range n) :=
      List.range_succ_eq_map n
    rw [hr]
    simp only [List.map_cons, List.head?_cons]
    congr 1
    rw [Nat.cast_zero, zero_div]
    rw [interpolate_point_zero _ _ _ _ _ (radians_lat_bounds ho) (radians_lon_bounds ho)
      hd0 hsep]
    rw [degrees_radians, degrees_radians]
  · have hr : List.range (n + 1) = List.range n ++ [n] := by
      rw [List.range_succ]
    rw [hr, List.map_append, List.map_singleton, List.getLast?_concat]
    rw [show ((n : ℕ) : ℝ) / (n : ℝ) = 1 from div_self (by exact_mod_cast hn0)]
    rcases eq_or_lt_of_le hd0 with hdz | hdz
    · have heq : o = dst := angular_distance_eq_zero_imp ho hdst hdz.symm
      congr 1
      unfold interpolate_point
      rw [if_pos hdz.symm, degrees_radians, degrees_radians, heq]
    · congr 1
      rw [interpolate_point_one _ _ _ _ _ (radians_lat_bounds hdst) (radians_lon_bounds hdst)
        hdz hsep]
      rw [degrees_radians, degrees_radians]
  · intro heq p hp
    rw [List.mem_map] at hp
    obtain ⟨i, -, rfl⟩ := hp
    subst heq
    unfold interpolate_point
    rw [if_pos (angular_distance_self o), degrees_radians, degrees_radians]

/-- C8 witness: the amended statement instantiated at `a = (0°N, 0°E)`,
`b = (10°N, 0°E)`, `n = 3`: 4 points, first `[0, 0]`, last `[0, 10]`. -/
theorem C8_interpolate_endpoints_witness :
    ((1 : ℕ) ≤ 3 ∧ InRangeStrict ⟨0, 0⟩ ∧ InRangeStrict ⟨10, 0⟩ ∧
      angular_distance ⟨0, 0⟩ ⟨10, 0⟩ < Real.pi) ∧
    (∃ pts, interpolate_great_circle ⟨0, 0⟩ ⟨10, 0⟩ 3 = some pts ∧
      pts.length = 3 + 1 ∧
      pts.head? = some [(0 : ℝ), 0] ∧
      pts.getLast? = some [(0 : ℝ), 10] ∧
      ((⟨0, 0⟩ : Coordinates ℝ) = ⟨10, 0⟩ → ∀ p ∈ pts, p = [(0 : ℝ), 0])) := by
  have hπ := Real.pi_pos
  have h1 : (1 : ℕ) ≤ 3 := by norm_num
  have h2 : InRangeStrict (⟨0, 0⟩ : Coordinates ℝ) := by
    refine ⟨by norm_num, by norm_num, by norm_num, by norm_num⟩
  have h3 : InRangeStrict (⟨10, 0⟩ : Coordinates ℝ) := by
    refine ⟨by norm_num, by norm_num, by norm_num, by norm_num⟩
  have hr : radians ((10 : ℝ) - 0) = Real.pi / 18 := by
    unfold radians
    ring
  have h4 : angular_distance (⟨0, 0⟩ : Coordinates ℝ) ⟨10, 0⟩ < Real.pi := by
    have habs : |radians ((10 : ℝ) - 0)| ≤ Real.pi := by
      rw [hr, abs_of_nonneg (by positivity)]
      linarith
    rw [angular_distance_same_lon 0 10 0 habs, hr, abs_of_nonneg (by positivity)]
    linarith
  exact ⟨⟨h1, h2, h3, h4⟩, C8_interpolate_endpoints ⟨0, 0⟩ ⟨10, 0⟩ 3 h1 h2 h3 h4⟩

/-! ## Route models (`app/models/route.py`) -/

/-- `RouteSegment` in `app/models/route.py`. -/
structure RouteSegment (α : Type*) where
  mode : TransportMode
  from_name : String
  from_coordinates : Coordinates α
  to_name : String
  to_coordinates : Coordinates α
  distance_km : α
  duration_hours : α
  emission_kg_co2 : α
  geometry : List (List α)
deriving DecidableEq, Repr

/-- A waypoint dict (`{name, type, coordinates}`) of a `MultiModalRoute`. -/
structure Waypoint (α : Type*) where
  name : String
  type : String
  coordinates : Coordinates α
deriving DecidableEq, Repr

/-- `MultiModalRoute` in `app/models/route.py`. -/
structure MultiModalRoute (α : Type*) where
  segments : List (RouteSegment α)
  total_distance_km : α
  total_duration_hours : α
  total_emission_kg_co2 : α
  transport_mode : TransportMode
  is_viable : Bool := true
  waypoints : List (Waypoint α) := []
  not_viable_reason : Option String := none
deriving DecidableEq, Repr

/-- `RouteInfo` in `app/models/route.py`. -/
structure RouteInfo (α : Type*) where
  distance_km : α
  duration_hours : Option α := none
  geometry : List (List α)
  emission_kg_co2 : α
  route_type : String
  transport_mode : TransportMode := .land
deriving DecidableEq, Repr

/-- `ModeComparison` in `app/models/route.py`. -/
structure ModeComparison (α : Type*) where
  transport_mode : TransportMode
  distance_km : α
  duration_hours : α
  emission_kg_co2 : α
  is_shortest : Bool := false
  is_most_efficient : Bool := false
  is_viable : Bool := true
  not_viable_reason : Option String := none
deriving DecidableEq, Repr

/-- The waypoint-resolver result dict (`{name, full_name, coordinates,
distance_km}`) returned by `_find_nearest_airport` / `_find_nearest_port`
and the `_find_nearest_known_*` lookups. -/
structure Hub (α : Type*) where
  name : String
  full_name : String
  coordinates : Coordinates α
  distance_km : α
deriving DecidableEq, Repr

/-- The result dict of `RouteService._get_road_route` when the provider is
available. -/
structure RoadRoute (α : Type*) where
  distance_km : α
  duration_hours : α
  geometry : List (List α)
deriving DecidableEq, Repr

/-! ## Route synthesis (`app/services/route_service.py`)

The network calls (`_get_road_route`, the waypoint resolvers) are oracle
inputs: each synthesis function takes the corresponding call's result as an
`Option` argument (`none` = unavailable / not found).  The emission service
is the one constructed by `RouteService.__init__` (factor table passed
through).  The `f"... ({flight_distance:.0f}km) ..."` numeric interpolation
of one reason string is elided: only the fixed text is kept. -/

/-- `RouteService.AVERAGE_SPEEDS` (km/h). -/
noncomputable def average_speeds : TransportMode → ℝ
  | .land => 60.0
  | .sea => 30.0
  | .air => 800.0

/-- `RouteService.MIN_FLIGHT_DISTANCE` (km). -/
noncomputable def MIN_FLIGHT_DISTANCE : ℝ := 200.0

/-- One road connector leg of a multi-hop route: the road adapter's result
when available, else the `hub_distance * 1.3` fallback with speed-based
duration and 10-interval interpolated geometry (the identical
`road1`/`road2` blocks of `_compute_air_route` and `_compute_sea_route`). -/
noncomputable def road_leg (road : Option (RoadRoute ℝ)) (a b : Coordinates ℝ)
    (hub_distance_km : ℝ) : RoadRoute ℝ :=
  match road with
  | some r => r
  | none =>
    { distance_km := hub_distance_km * 1.3
      duration_hours := hub_distance_km * 1.3 / average_speeds .land
      geometry := (interpolate_great_circle a b 10).getD [] }

/-- `RouteService._compute_land_route` (`road_route` = the provider call's
result; `none` = unavailable). -/
noncomputable def compute_land_route (factors : EmissionFactors ℝ)
    (road_route : Option (RoadRoute ℝ)) (origin destination : Coordinates ℝ)
    (weight_kg : ℝ) : Except String (MultiModalRoute ℝ) :=
  let leg : RoadRoute ℝ :=
    match road_route with
    | some r => r
    | none =>
      let direct_distance := haversine_distance origin destination
      let distance_km := direct_distance * 1.3
      { distance_km := distance_km
        duration_hours := distance_km / average_speeds .land
        geometry := (interpolate_great_circle origin destination 20).getD [] }
  match calculate_emission factors leg.distance_km weight_kg .land with
  | .error e => .error e
  | .ok emission =>
    let segment : RouteSegment ℝ :=
      { mode := .land
        from_name := "Origin"
        from_coordinates := origin
        to_name := "Destination"
        to_coordinates := destination
        distance_km := pyround leg.distance_km 2
        duration_hours := pyround leg.duration_hours 2
        emission_kg_co2 := emission.emission_kg_co2
        geometry := leg.geometry }
    .ok { segments := [segment]
          total_distance_km := pyround leg.distance_km 2
          total_duration_hours := pyround leg.duration_hours 2
          total_emission_kg_co2 := emission.emission_kg_co2
          transport_mode := .land
          is_viable := true
          waypoints := [] }

/-- The empty not-viable route the air/sea synthesis returns when a hub is
missing or the flight is too short. -/
def not_viable_route (mode : TransportMode) (reason : String) : MultiModalRoute α :=
  { segments := []
    total_distance_km := 0
    total_duration_hours := 0
    total_emission_kg_co2 := 0
    transport_mode := mode
    is_viable := false
    waypoints := []
    not_viable_reason := some reason }

/-- `RouteService._compute_air_route` (resolver and road-provider results
passed as oracle arguments). -/
noncomputable def compute_air_route (factors : EmissionFactors ℝ)
    (origin_airport dest_airport : Option (Hub ℝ))
    (road1 road2 : Option (RoadRoute ℝ))
    (origin destination : Coordinates ℝ) (weight_kg : ℝ)
    (origin_name destination_name : String) : Except String (MultiModalRoute ℝ) :=
  let origin_city := (origin_name.splitOn ",").headD ""
  let dest_city := (destination_name.splitOn ",").headD ""
  match origin_airport with
  | none => .ok (not_viable_route .air ("No airport found near " ++ origin_city))
  | some oa =>
  match dest_airport with
  | none => .ok (not_viable_route .air ("No airport found near " ++ dest_city))
  | some da =>
  let flight_distance := haversine_distance oa.coordinates da.coordinates
  if flight_distance < MIN_FLIGHT_DISTANCE then
    .ok (not_viable_route .air "Flight distance too short")
  else
    let leg1 := road_leg road1 origin oa.coordinates oa.distance_km
    match calculate_emission factors leg1.distance_km weight_kg .land with
    | .error e => .error e
    | .ok road1_emission =>
    let flight_duration := flight_distance / average_speeds .air + 1.5
    match calculate_emission factors flight_distance weight_kg .air with
    | .error e => .error e
    | .ok flight_emission =>
    let flight_geometry :=
      (interpolate_great_circle oa.coordinates da.coordinates 30).getD []
    let leg2 := road_leg road2 da.coordinates destination da.distance_km
    match calculate_emission factors leg2.distance_km weight_kg .land with
    | .error e => .error e
    | .ok road2_emission =>
    .ok { segments :=
            [{ mode := .land
               from_name := origin_city
               from_coordinates := origin
               to_name := oa.name
               to_coordinates := oa.coordinates
               distance_km := pyround leg1.distance_km 2
               duration_hours := pyround leg1.duration_hours 2
               emission_kg_co2 := road1_emission.emission_kg_co2
               geometry := leg1.geometry },
             { mode := .air
               from_name := oa.name
               from_coordinates := oa.coordinates
               to_name := da.name
               to_coordinates := da.coordinates
               distance_km := pyround flight_distance 2
               duration_hours := pyround flight_duration 2
               emission_kg_co2 := flight_emission.emission_kg_co2
               geometry := flight_geometry },
             { mode := .land
               from_name := da.name
               from_coordinates := da.coordinates
               to_name := dest_city
               to_coordinates := destination
               distance_km := pyround leg2.distance_km 2
               duration_hours := pyround leg2.duration_hours 2
               emission_kg_co2 := road2_emission.emission_kg_co2
               geometry := leg2.geometry }]
          total_distance_km :=
            pyround (leg1.distance_km + flight_distance + leg2.distance_km) 2
          total_duration_hours :=
            pyround (leg1.duration_hours + flight_duration + leg2.duration_hours) 2
          total_emission_kg_co2 :=
            pyround (road1_emission.emission_kg_co2 + flight_emission.emission_kg_co2
              + road2_emission.emission_kg_co2) 4
          transport_mode := .air
          is_viable := true
          waypoints := [⟨oa.name, "airport", oa.coordinates⟩,
            ⟨da.name, "airport", da.coordinates⟩] }

/-- `RouteService._compute_sea_route` (resolver and road-provider results
passed as oracle arguments). -/
noncomputable def compute_sea_route (factors : EmissionFactors ℝ)
    (origin_port dest_port : Option (Hub ℝ))
    (road1 road2 : Option (RoadRoute ℝ))
    (origin destination : Coordinates ℝ) (weight_kg : ℝ)
    (origin_name destination_name : String) : Except String (MultiModalRoute ℝ) :=
  let origin_city := (origin_name.splitOn ",").headD ""
  let dest_city := (destination_name.splitOn ",").headD ""
  match origin_port with
  | none => .ok (not_viable_route .sea ("No port found near " ++ origin_city))
  | some op =>
  match dest_port with
  | none => .ok (not_viable_route .sea ("No port found near " ++ dest_city))
  | some dp =>
  let shipping_distance := haversine_distance op.coordinates dp.coordinates * 1.3
  let leg1 := road_leg road1 origin op.coordinates op.distance_km
  match calculate_emission factors leg1.distance_km weight_kg .land with
  | .error e => .error e
  | .ok road1_emission =>
  let shipping_duration := shipping_distance / average_speeds .sea + 24
  match calculate_emission factors shipping_distance weight_kg .sea with
  | .error e => .error e
  | .ok shipping_emission =>
  let shipping_geometry :=
    (interpolate_great_circle op.coordinates dp.coordinates 40).getD []
  let leg2 := road_leg road2 dp.coordinates destination dp.distance_km
  match calculate_emission factors leg2.distance_km weight_kg .land with
  | .error e => .error e
  | .ok road2_emission =>
  .ok { segments :=
          [{ mode := .land
             from_name := origin_city
             from_coordinates := origin
             to_name := op.name
             to_coordinates := op.coordinates
             distance_km := pyround leg1.distance_km 2
             duration_hours := pyround leg1.duration_hours 2
             emission_kg_co2 := road1_emission.emission_kg_co2
             geometry := leg1.geometry },
           { mode := .sea
             from_name := op.name
             from_coordinates := op.coordinates
             to_name := dp.name
             to_coordinates := dp.coordinates
             distance_km := pyround shipping_distance 2
             duration_hours := pyround shipping_duration 2
             emission_kg_co2 := shipping_emission.emission_kg_co2
             geometry := shipping_geometry },
           { mode := .land
             from_name := dp.name
             from_coordinates := dp.coordinates
             to_name := dest_city
             to_coordinates := destination
             distance_km := pyround leg2.distance_km 2
             duration_hours := pyround leg2.duration_hours 2
             emission_kg_co2 := road2_emission.emission_kg_co2
             geometry := leg2.geometry }]
        total_distance_km :=
          pyround (leg1.distance_km + shipping_distance + leg2.distance_km) 2
        total_duration_hours :=
          pyround (leg1.duration_hours + shipping_duration + leg2.duration_hours) 2
        total_emission_kg_co2 :=
          pyround (road1_emission.emission_kg_co2 + shipping_emission.emission_kg_co2
            + road2_emission.emission_kg_co2) 4
        transport_mode := .sea
        is_viable := true
        waypoints := [⟨op.name, "port", op.coordinates⟩,
          ⟨dp.name, "port", dp.coordinates⟩] }

/-! ## Aggregation (`RouteService.compute_all_routes`, lines 889-936) -/

/-- `combine_geometries` inside `compute_all_routes`: concatenation of the
segments' geometries in order. -/
def combine_geometries (route : MultiModalRoute α) : List (List α) :=
  (route.segments.map (·.geometry)).flatten

/-- Python's `min(l, key=k)`: the first element of `l` attaining the minimal
key (`none` on the empty list, where Python raises). -/
def python_min {β γ : Type*} [LinearOrder γ] (key : β → γ) : List β → Option β
  | [] => none
  | x :: xs => some (xs.foldl (fun best y => if key y < key best then y else best) x)

/-- The aggregation step of `RouteService.compute_all_routes`: takes the
three per-mode synthesis results (whose computation consumes the network
oracles) and builds the shortest / most-efficient `RouteInfo` pair and the
per-mode comparison list. -/
def compute_all_routes (land_route air_route sea_route : MultiModalRoute α) :
    RouteInfo α × RouteInfo α × List (ModeComparison α) :=
  let all_routes := [land_route, air_route, sea_route]
  let viable_routes := all_routes.filter (·.is_viable)
  let viable_routes := if viable_routes.isEmpty then [land_route] else viable_routes
  let shortest := (python_min (·.total_distance_km) viable_routes).getD land_route
  let efficient := (python_min (·.total_emission_kg_co2) viable_routes).getD land_route
  let shortest_route : RouteInfo α :=
    { distance_km := shortest.total_distance_km
      duration_hours := some shortest.total_duration_hours
      geometry := combine_geometries shortest
      emission_kg_co2 := shortest.total_emission_kg_co2
      route_type := "shortest"
      transport_mode := shortest.transport_mode }
  let efficient_route : RouteInfo α :=
    { distance_km := efficient.total_distance_km
      duration_hours := some efficient.total_duration_hours
      geometry := combine_geometries efficient
      emission_kg_co2 := efficient.total_emission_kg_co2
      route_type := "efficient"
      transport_mode := efficient.transport_mode }
  let mode_comparison := all_routes.map fun route =>
    { transport_mode := route.transport_mode
      distance_km := route.total_distance_km
      duration_hours := route.total_duration_hours
      emission_kg_co2 := route.total_emission_kg_co2
      is_shortest := route.transport_mode == shortest.transport_mode
      is_most_efficient := route.transport_mode == efficient.transport_mode
      is_viable := route.is_viable
      not_viable_reason := route.not_viable_reason : ModeComparison α }
  (shortest_route, efficient_route, mode_comparison)

/-- `x` is the first element of `l` attaining the minimal `key` — the
semantics of Python's `min(l, key=key)` on a non-empty list. -/
def IsFirstMinBy {β γ : Type*} [LinearOrder γ] (key : β → γ) (l : List β) (x : β) : Prop :=
  ∃ l1 l2, l = l1 ++ x :: l2 ∧ (∀ y ∈ l1, key x < key y) ∧ ∀ y ∈ l, key x ≤ key y

theorem foldl_min_first {β γ : Type*} [LinearOrder γ] (key : β → γ) :
    ∀ (xs : List β) (b : β),
      IsFirstMinBy key (b :: xs)
        (xs.foldl (fun best y => if key y < key best then y else best) b)
  | [], b => ⟨[], [], rfl, by simp, by simp⟩
  | y :: ys, b => by
    simp only [List.foldl_cons]
    rcases lt_or_le (key y) (key b) with h | h
    · rw [if_pos h]
      obtain ⟨l1, l2, heq, hpre, hmin⟩ := foldl_min_first key ys y
      refine ⟨b :: l1, l2, ?_, ?_, ?_⟩
      · rw [List.cons_append, ← heq]
      · intro w hw
        rcases List.mem_cons.mp hw with rfl | hw'
        · exact lt_of_le_of_lt (hmin y (List.mem_cons_self y ys)) h
        · exact hpre w hw'
      · intro w hw
        rcases List.mem_cons.mp hw with rfl | hw'
        · exact le_of_lt (lt_of_le_of_lt (hmin y (List.mem_cons_self y ys)) h)
        · exact hmin w (heq ▸ hw')
    · rw [if_neg (not_lt.mpr h)]
      obtain ⟨l1, l2, heq, hpre, hmin⟩ := foldl_min_first key ys b
      rcases l1 with - | ⟨z, l1t⟩
      · simp only [List.nil_append] at heq
        injection heq with h1 h2
        refine ⟨[], y :: l2, ?_, by simp, ?_⟩
        · rw [List.nil_append, ← h1, ← h2]
        · intro w hw
          rw [← h1]
          rcases List.mem_cons.mp hw with rfl | hw'
          · exact le_refl _
          · rcases List.mem_cons.mp hw' with rfl | hw''
            · exact h
            · have hgoal := hmin w (List.mem_cons_of_mem b (h2 ▸ hw''))
              rwa [← h1] at hgoal
      · simp only [List.cons_append] at heq
        injection heq with h1 h2
        refine ⟨b :: y :: l1t, l2, ?_, ?_, ?_⟩
        · rw [List.cons_append, List.cons_append, ← h2]
        · intro w hw
          have hrb : key (ys.foldl (fun best y => if key y < key best then y else best) b)
              < key b := by
            have hb := hpre z (List.mem_cons_self z l1t)
            rwa [← h1] at hb
          rcases List.mem_cons.mp hw with rfl | hw'
          · exact hrb
          · rcases List.mem_cons.mp hw' with rfl | hw''
            · exact lt_of_lt_of_le hrb h
            · exact hpre w (List.mem_cons_of_mem z hw'')
        · intro w hw
          rcases List.mem_cons.mp hw with rfl | hw'
          · exact hmin w (List.mem_cons_self w ys)
          · rcases List.mem_cons.mp hw' with rfl | hw''
            · exact le_trans (hmin b (List.mem_cons_self b ys)) h
            · exact hmin w (List.mem_cons_of_mem b hw'')

theorem python_min_spec {β γ : Type*} [LinearOrder γ] (key : β → γ) (l : List β) (x : β)
    (h : python_min key l = some x) : IsFirstMinBy key l x := by
  cases l with
  | nil => simp [python_min] at h
  | cons b xs =>
    simp only [python_min, Option.some.injEq] at h
    rw [← h]
    exact foldl_min_first key xs b

/-- C1 (amended): over the viable per-mode routes (land forced in when none
is viable), the shortest `RouteInfo` is built from the first route in the
order (land, air, sea) attaining the minimal `total_distance_km`, the
most-efficient one from the first attaining the minimal
`total_emission_kg_co2`, and among the returned comparisons exactly one is
flagged `is_shortest` and exactly one `is_most_efficient`, each carrying the
selected route's mode. -/
theorem C1_compute_all_routes_selection (l a s : MultiModalRoute α)
    (hl : l.transport_mode = .land) (ha : a.transport_mode = .air)
    (hs : s.transport_mode = .sea) :
    ∃ shortest efficient,
      IsFirstMinBy (fun r => r.total_distance_km)
        (if (([l, a, s].filter (fun r => r.is_viable)).isEmpty) then [l]
          else [l, a, s].filter (fun r => r.is_viable)) shortest ∧
      IsFirstMinBy (fun r => r.total_emission_kg_co2)
        (if (([l, a, s].filter (fun r => r.is_viable)).isEmpty) then [l]
          else [l, a, s].filter (fun r => r.is_viable)) efficient ∧
      (compute_all_routes l a s).1 =
        { distance_km := shortest.total_distance_km
          duration_hours := some shortest.total_duration_hours
          geometry := combine_geometries shortest
          emission_kg_co2 := shortest.total_emission_kg_co2
          route_type := "shortest"
          transport_mode := shortest.transport_mode } ∧
      (compute_all_routes l a s).2.1 =
        { distance_km := efficient.total_distance_km
          duration_hours := some efficient.total_duration_hours
          geometry := combine_geometries efficient
          emission_kg_co2 := efficient.total_emission_kg_co2
          route_type := "efficient"
          transport_mode := efficient.transport_mode } ∧
      ((compute_all_routes l a s).2.2.countP (fun c => c.is_shortest) = 1 ∧
        (compute_all_routes l a s).2.2.countP (fun c => c.is_most_efficient) = 1) ∧
      ∀ c ∈ (compute_all_routes l a s).2.2,
        (c.is_shortest = true → c.transport_mode = shortest.transport_mode) ∧
        (c.is_most_efficient = true → c.transport_mode = efficient.transport_mode) := by
  simp only [compute_all_routes]
  set V : List (MultiModalRoute α) :=
    if (([l, a, s].filter (fun r => r.is_viable)).isEmpty) then [l]
    else [l, a, s].filter (fun r => r.is_viable) with hV
  have hVne : V ≠ [] := by
    rw [hV]
    split_ifs with h
    · simp
    · intro hnil
      rw [List.isEmpty_iff] at h
      exact h hnil
  obtain ⟨m, hm⟩ : ∃ m, python_min (fun r => r.total_distance_km) V = some m := by
    cases hVl : V with
    | nil => exact absurd hVl hVne
    | cons b xs => exact ⟨_, rfl⟩
  obtain ⟨me, hme⟩ : ∃ me, python_min (fun r => r.total_emission_kg_co2) V = some me := by
    cases hVl : V with
    | nil => exact absurd hVl hVne
    | cons b xs => exact ⟨_, rfl⟩
  have hmF := python_min_spec _ _ _ hm
  have hmeF := python_min_spec _ _ _ hme
  have hmode : ∀ x : MultiModalRoute α,
      IsFirstMinBy (fun r => r.total_distance_km) V x ∨
      IsFirstMinBy (fun r => r.total_emission_kg_co2) V x → x = l ∨ x = a ∨ x = s := by
    intro x hx
    have hxmem : x ∈ V := by
      rcases hx with ⟨l1, l2, heq, -, -⟩ | ⟨l1, l2, heq, -, -⟩ <;>
        · rw [heq]
          exact List.mem_append.mpr (Or.inr (List.mem_cons_self x l2))
    rw [hV] at hxmem
    split_ifs at hxmem with h
    · simp only [List.mem_singleton] at hxmem
      exact Or.inl hxmem
    · have := (List.mem_filter.mp hxmem).1
      simpa using this
  rw [hm, hme]
  simp only [Option.getD_some]
  refine ⟨m, me, hmF, hmeF, rfl, rfl, ⟨?_, ?_⟩, ?_⟩
  · rcases hmode m (Or.inl hmF) with rfl | rfl | rfl <;>
      simp [List.countP_cons, hl, ha, hs]
  · rcases hmode me (Or.inr hmeF) with rfl | rfl | rfl <;>
      simp [List.countP_cons, hl, ha, hs]
  · intro c hc
    simp only [List.mem_map] at hc
    obtain ⟨r, -, rfl⟩ := hc
    constructor
    · intro hflag
      simpa using (beq_iff_eq.mp (by simpa using hflag))
    · intro hflag
      simpa using (beq_iff_eq.mp (by simpa using hflag))

/-- Concrete aggregation inputs exhibiting a distance tie between the air
and the sea route (both viable, both 5 km shorter than land). -/
def cex_land_route : MultiModalRoute ℚ :=
  { segments := [], total_distance_km := 10, total_duration_hours := 5,
    total_emission_kg_co2 := 1, transport_mode := .land }

def cex_air_route : MultiModalRoute ℚ :=
  { segments := [], total_distance_km := 5, total_duration_hours := 2,
    total_emission_kg_co2 := 9, transport_mode := .air }

def cex_sea_route : MultiModalRoute ℚ :=
  { segments := [], total_distance_km := 5, total_duration_hours := 30,
    total_emission_kg_co2 := 2, transport_mode := .sea }

/-- Modelled from the spec's words, for refutation: the shortest-route mode
if ties were broken by first-encountered in the fixed mode order
(land, sea, air), as the claim states. -/
def spec_shortest_mode_claimed (l a s : MultiModalRoute α) : TransportMode :=
  ((python_min (fun r => r.total_distance_km)
    (if (([l, s, a].filter (fun r => r.is_viable)).isEmpty) then [l]
      else [l, s, a].filter (fun r => r.is_viable))).getD l).transport_mode

/-- C1 counterexample: with land at 10 km and air and sea tied at 5 km (all
viable), the code flags **air** as shortest (the scan order of
`compute_all_routes` is `[land, air, sea]`), while the claimed tie-break
order (land, sea, air) would select **sea**. -/
theorem C1_compute_all_routes_counterexample :
    ((compute_all_routes cex_land_route cex_air_route cex_sea_route).2.2.filter
      (fun c => c.is_shortest)).map (fun c => c.transport_mode) = [TransportMode.air] ∧
    spec_shortest_mode_claimed cex_land_route cex_air_route cex_sea_route =
      TransportMode.sea ∧
    TransportMode.air ≠ TransportMode.sea := by
  refine ⟨by decide, by decide, by decide⟩

/-- C1 witness: the amended selection statement at concrete viable routes
(land 10 km / 1 kg, air 5 km / 9 kg, sea 7 km / 2 kg). -/
theorem C1_compute_all_routes_selection_witness :
    (cex_land_route.transport_mode = .land ∧ cex_air_route.transport_mode = .air ∧
      cex_sea_route.transport_mode = .sea) ∧
    (∃ shortest efficient,
      IsFirstMinBy (fun r => r.total_distance_km)
        (if ((([cex_land_route, cex_air_route, cex_sea_route].filter
            (fun r => r.is_viable)).isEmpty)) then [cex_land_route]
          else [cex_land_route, cex_air_route, cex_sea_route].filter
            (fun r => r.is_viable)) shortest ∧
      IsFirstMinBy (fun r => r.total_emission_kg_co2)
        (if ((([cex_land_route, cex_air_route, cex_sea_route].filter
            (fun r => r.is_viable)).isEmpty)) then [cex_land_route]
          else [cex_land_route, cex_air_route, cex_sea_route].filter
            (fun r => r.is_viable)) efficient ∧
      (compute_all_routes cex_land_route cex_air_route cex_sea_route).1 =
        { distance_km := shortest.total_distance_km
          duration_hours := some shortest.total_duration_hours
          geometry := combine_geometries shortest
          emission_kg_co2 := shortest.total_emission_kg_co2
          route_type := "shortest"
          transport_mode := shortest.transport_mode } ∧
      (compute_all_routes cex_land_route cex_air_route cex_sea_route).2.1 =
        { distance_km := efficient.total_distance_km
          duration_hours := some efficient.total_duration_hours
          geometry := combine_geometries efficient
          emission_kg_co2 := efficient.total_emission_kg_co2
          route_type := "efficient"
          transport_mode := efficient.transport_mode } ∧
      (((compute_all_routes cex_land_route cex_air_route cex_sea_route).2.2.countP
          (fun c => c.is_shortest) = 1 ∧
        (compute_all_routes cex_land_route cex_air_route cex_sea_route).2.2.countP
          (fun c => c.is_most_efficient) = 1)) ∧
      ∀ c ∈ (compute_all_routes cex_land_route cex_air_route cex_sea_route).2.2,
        (c.is_shortest = true → c.transport_mode = shortest.transport_mode) ∧
        (c.is_most_efficient = true → c.transport_mode = efficient.transport_mode)) :=
  ⟨⟨rfl, rfl, rfl⟩,
    C1_compute_all_routes_selection cex_land_route cex_air_route cex_sea_route rfl rfl rfl⟩

/-! ## Per-mode synthesis invariants (claims C2 and C4) -/

theorem interpolate_length (o dst : Coordinates ℝ) (n : ℕ) (hn : n ≠ 0) :
    ((interpolate_great_circle o dst n).getD []).length = n + 1 := by
  rw [interpolate_great_circle_eq o dst n hn]
  simp

/-- The viable-route totals invariant ("rounded consistently"): the stored
per-segment distances/durations are the 2-decimal roundings of exact leg
values whose rounded sum is the stored total, and the emission total equals
the sum of the stored per-segment emissions exactly. -/
def ViableTotalsOk (rt : MultiModalRoute ℝ) : Prop :=
  ∃ ds hs : List ℝ,
    rt.segments.map (fun s => s.distance_km) = ds.map (fun x => pyround x 2) ∧
    rt.segments.map (fun s => s.duration_hours) = hs.map (fun x => pyround x 2) ∧
    rt.total_distance_km = pyround ds.sum 2 ∧
    rt.total_duration_hours = pyround hs.sum 2 ∧
    rt.total_emission_kg_co2 = (rt.segments.map (fun s => s.emission_kg_co2)).sum

/-- The not-viable invariant: no segments, zero totals, a reason set. -/
def NotViableOk (rt : MultiModalRoute ℝ) : Prop :=
  rt.segments = [] ∧ rt.total_distance_km = 0 ∧ rt.total_duration_hours = 0 ∧
    rt.total_emission_kg_co2 = 0 ∧ rt.not_viable_reason.isSome = true

theorem compute_land_route_spec (factors : EmissionFactors ℝ)
    (road0 : Option (RoadRoute ℝ)) (origin destination : Coordinates ℝ)
    (weight_kg : ℝ) (hw : 0 ≤ weight_kg)
    (hr0 : ∀ r ∈ road0, 0 ≤ r.distance_km) :
    ∃ rt, compute_land_route factors road0 origin destination weight_kg = .ok rt ∧
      rt.is_viable = true ∧ rt.transport_mode = .land ∧ ViableTotalsOk rt ∧
      rt.waypoints = [] := by
  rcases road0 with - | r0
  · have hd : 0 ≤ haversine_distance origin destination * 1.3 :=
      mul_nonneg (haversine_nonneg _ _) (by norm_num)
    simp only [compute_land_route]
    rw [calculate_emission_ok _ _ _ _ hd hw]
    refine ⟨_, rfl, rfl, rfl, ?_, rfl⟩
    refine ⟨[haversine_distance origin destination * 1.3],
      [haversine_distance origin destination * 1.3 / average_speeds .land],
      by simp, by simp, by simp, by simp, by simp⟩
  · have hd : 0 ≤ r0.distance_km := hr0 r0 rfl
    simp only [compute_land_route]
    rw [calculate_emission_ok _ _ _ _ hd hw]
    refine ⟨_, rfl, rfl, rfl, ?_, rfl⟩
    exact ⟨[r0.distance_km], [r0.duration_hours],
      by simp, by simp, by simp, by simp, by simp⟩

/-- C4: with the road provider unavailable, the land synthesis produces one
viable single-segment route whose total distance is the (2-decimal rounded)
great-circle distance × 1.3 — hence within 0.005 km of it, well inside the
claim's ±1% at 1000 km —, whose duration is that distance divided by the
60 km/h average speed, and whose geometry is the 20-interval great-circle
interpolation, i.e. 21 points. -/
theorem C4_land_fallback (factors : EmissionFactors ℝ)
    (origin destination : Coordinates ℝ) (weight_kg : ℝ) (hw : 0 ≤ weight_kg) :
    ∃ rt seg, compute_land_route factors none origin destination weight_kg = .ok rt ∧
      rt.is_viable = true ∧
      rt.total_distance_km = pyround (haversine_distance origin destination * 1.3) 2 ∧
      |rt.total_distance_km - haversine_distance origin destination * 1.3| ≤ 1 / 200 ∧
      rt.total_duration_hours =
        pyround (haversine_distance origin destination * 1.3 / 60) 2 ∧
      rt.segments = [seg] ∧
      seg.geometry = (interpolate_great_circle origin destination 20).getD [] ∧
      seg.geometry.length = 21 := by
  have hd : 0 ≤ haversine_distance origin destination * 1.3 :=
    mul_nonneg (haversine_nonneg _ _) (by norm_num)
  simp only [compute_land_route]
  rw [calculate_emission_ok _ _ _ _ hd hw]
  refine ⟨_, _, rfl, rfl, rfl, ?_, ?_, rfl, rfl, ?_⟩
  · have h := abs_pyround_sub (haversine_distance origin destination * 1.3) 2
    calc |pyround (haversine_distance origin destination * 1.3) 2
        - haversine_distance origin destination * 1.3| ≤ 1 / (2 * 10 ^ 2) := h
      _ ≤ 1 / 200 := by norm_num
  · show pyround (haversine_distance origin destination * 1.3 / average_speeds .land) 2 = _
    simp only [average_speeds]
    norm_num
  · exact interpolate_length origin destination 20 (by norm_num)

/-- C4 witness: the fallback statement instantiated at `(0°N, 0°E)`,
`(10°N, 0°E)`, 5 kg, default factors. -/
theorem C4_land_fallback_witness :
    (0 : ℝ) ≤ 5 ∧
    (∃ rt seg, compute_land_route default_emission_factors none ⟨0, 0⟩ ⟨10, 0⟩ 5 = .ok rt ∧
      rt.is_viable = true ∧
      rt.total_distance_km = pyround (haversine_distance ⟨0, 0⟩ ⟨10, 0⟩ * 1.3) 2 ∧
      |rt.total_distance_km - haversine_distance ⟨0, 0⟩ ⟨10, 0⟩ * 1.3| ≤ 1 / 200 ∧
      rt.total_duration_hours = pyround (haversine_distance ⟨0, 0⟩ ⟨10, 0⟩ * 1.3 / 60) 2 ∧
      rt.segments = [seg] ∧
      seg.geometry = (interpolate_great_circle ⟨0, 0⟩ ⟨10, 0⟩ 20).getD [] ∧
      seg.geometry.length = 21) :=
  ⟨by norm_num, C4_land_fallback default_emission_factors ⟨0, 0⟩ ⟨10, 0⟩ 5 (by norm_num)⟩

theorem viable_totals_three (rt : MultiModalRoute ℝ)
    (A B C dA dB dC eA eB eC : ℝ)
    (hsegs : rt.segments.map (fun s => s.distance_km)
      = [pyround A 2, pyround B 2, pyround C 2])
    (hdurs : rt.segments.map (fun s => s.duration_hours)
      = [pyround dA 2, pyround dB 2, pyround dC 2])
    (hems : rt.segments.map (fun s => s.emission_kg_co2)
      = [pyround eA 4, pyround eB 4, pyround eC 4])
    (htd : rt.total_distance_km = pyround (A + B + C) 2)
    (hth : rt.total_duration_hours = pyround (dA + dB + dC) 2)
    (hte : rt.total_emission_kg_co2
      = pyround (pyround eA 4 + pyround eB 4 + pyround eC 4) 4) :
    ViableTotalsOk rt := by
  refine ⟨[A, B, C], [dA, dB, dC], by simpa using hsegs, by simpa using hdurs, ?_, ?_, ?_⟩
  · rw [htd]
    congr 1
    simp only [List.sum_cons, List.sum_nil]
    ring
  · rw [hth]
    congr 1
    simp only [List.sum_cons, List.sum_nil]
    ring
  · rw [hte, hems]
    have hgrid : ∀ x ∈ [pyround eA 4, pyround eB 4, pyround eC 4],
        ∃ k : ℤ, x = (k : ℝ) / 10 ^ 4 := by
      intro x hx
      simp only [List.mem_cons, List.not_mem_nil, or_false] at hx
      rcases hx with rfl | rfl | rfl <;> exact pyround_is_grid _ 4
    have hsum := pyround_sum_eq hgrid
    calc pyround (pyround eA 4 + pyround eB 4 + pyround eC 4) 4
        = pyround ([pyround eA 4, pyround eB 4, pyround eC 4].sum) 4 := by
          congr 1
          simp only [List.sum_cons, List.sum_nil]
          ring
      _ = [pyround eA 4, pyround eB 4, pyround eC 4].sum := hsum

theorem compute_air_route_viable_spec (factors : EmissionFactors ℝ)
    (oa da : Hub ℝ) (road1 road2 : Option (RoadRoute ℝ))
    (origin destination : Coordinates ℝ) (weight_kg : ℝ)
    (origin_name destination_name : String)
    (hw : 0 ≤ weight_kg) (hoa : 0 ≤ oa.distance_km) (hda : 0 ≤ da.distance_km)
    (hr1 : ∀ r ∈ road1, 0 ≤ r.distance_km) (hr2 : ∀ r ∈ road2, 0 ≤ r.distance_km)
    (hflight : MIN_FLIGHT_DISTANCE ≤ haversine_distance oa.coordinates da.coordinates) :
    ∃ rt, compute_air_route factors (some oa) (some da) road1 road2 origin destination
        weight_kg origin_name destination_name = .ok rt ∧
      rt.is_viable = true ∧ rt.transport_mode = .air ∧ ViableTotalsOk rt ∧
      rt.waypoints = [⟨oa.name, "airport", oa.coordinates⟩,
        ⟨da.name, "airport", da.coordinates⟩] := by
  have hl1 : 0 ≤ (road_leg road1 origin oa.coordinates oa.distance_km).distance_km := by
    rcases road1 with - | r
    · simp only [road_leg]
      exact mul_nonneg hoa (by norm_num)
    · exact hr1 r rfl
  have hl2 : 0 ≤ (road_leg road2 da.coordinates destination da.distance_km).distance_km := by
    rcases road2 with - | r
    · simp only [road_leg]
      exact mul_nonneg hda (by norm_num)
    · exact hr2 r rfl
  have hfd : 0 ≤ haversine_distance oa.coordinates da.coordinates := haversine_nonneg _ _
  simp only [compute_air_route]
  rw [if_neg (not_lt.mpr hflight)]
  rw [calculate_emission_ok _ _ _ _ hl1 hw, calculate_emission_ok _ _ _ _ hfd hw,
    calculate_emission_ok _ _ _ _ hl2 hw]
  refine ⟨_, rfl, rfl, rfl, ?_, rfl⟩
  exact viable_totals_three _ _ _ _ _ _ _ _ _ _ rfl rfl rfl rfl rfl rfl

theorem compute_air_route_no_origin_spec (factors : EmissionFactors ℝ)
    (dest_airport : Option (Hub ℝ)) (road1 road2 : Option (RoadRoute ℝ))
    (origin destination : Coordinates ℝ) (weight_kg : ℝ)
    (origin_name destination_name : String) :
    ∃ rt, compute_air_route factors none dest_airport road1 road2 origin destination
        weight_kg origin_name destination_name = .ok rt ∧
      rt.is_viable = false ∧ rt.transport_mode = .air ∧ NotViableOk rt :=
  ⟨_, rfl, rfl, rfl, rfl, rfl, rfl, rfl, rfl⟩

theorem compute_air_route_no_dest_spec (factors : EmissionFactors ℝ)
    (oa : Hub ℝ) (road1 road2 : Option (RoadRoute ℝ))
    (origin destination : Coordinates ℝ) (weight_kg : ℝ)
    (origin_name destination_name : String) :
    ∃ rt, compute_air_route factors (some oa) none road1 road2 origin destination
        weight_kg origin_name destination_name = .ok rt ∧
      rt.is_viable = false ∧ rt.transport_mode = .air ∧ NotViableOk rt :=
  ⟨_, rfl, rfl, rfl, rfl, rfl, rfl, rfl, rfl⟩

theorem compute_air_route_short_flight_spec (factors : EmissionFactors ℝ)
    (ob db : Hub ℝ) (road1 road2 : Option (RoadRoute ℝ))
    (origin destination : Coordinates ℝ) (weight_kg : ℝ)
    (origin_name destination_name : String)
    (hshort : haversine_distance ob.coordinates db.coordinates < MIN_FLIGHT_DISTANCE) :
    ∃ rt, compute_air_route factors (some ob) (some db) road1 road2 origin destination
        weight_kg origin_name destination_name = .ok rt ∧
      rt.is_viable = false ∧ rt.transport_mode = .air ∧ NotViableOk rt := by
  simp only [compute_air_route]
  rw [if_pos hshort]
  exact ⟨_, rfl, rfl, rfl, rfl, rfl, rfl, rfl, rfl⟩

theorem compute_sea_route_viable_spec (factors : EmissionFactors ℝ)
    (op dp : Hub ℝ) (road1 road2 : Option (RoadRoute ℝ))
    (origin destination : Coordinates ℝ) (weight_kg : ℝ)
    (origin_name destination_name : String)
    (hw : 0 ≤ weight_kg) (hop : 0 ≤ op.distance_km) (hdp : 0 ≤ dp.distance_km)
    (hr1 : ∀ r ∈ road1, 0 ≤ r.distance_km) (hr2 : ∀ r ∈ road2, 0 ≤ r.distance_km) :
    ∃ rt, compute_sea_route factors (some op) (some dp) road1 road2 origin destination
        weight_kg origin_name destination_name = .ok rt ∧
      rt.is_viable = true ∧ rt.transport_mode = .sea ∧ ViableTotalsOk rt ∧
      rt.waypoints = [⟨op.name, "port", op.coordinates⟩,
        ⟨dp.name, "port", dp.coordinates⟩] := by
  have hl1 : 0 ≤ (road_leg road1 origin op.coordinates op.distance_km).distance_km := by
    rcases road1 with - | r
    · simp only [road_leg]
      exact mul_nonneg hop (by norm_num)
    · exact hr1 r rfl
  have hl2 : 0 ≤ (road_leg road2 dp.coordinates destination dp.distance_km).distance_km := by
    rcases road2 with - | r
    · simp only [road_leg]
      exact mul_nonneg hdp (by norm_num)
    · exact hr2 r rfl
  have hsd : 0 ≤ haversine_distance op.coordinates dp.coordinates * 1.3 :=
    mul_nonneg (haversine_nonneg _ _) (by norm_num)
  simp only [compute_sea_route]
  rw [calculate_emission_ok _ _ _ _ hl1 hw, calculate_emission_ok _ _ _ _ hsd hw,
    calculate_emission_ok _ _ _ _ hl2 hw]
  refine ⟨_, rfl, rfl, rfl, ?_, rfl⟩
  exact viable_totals_three _ _ _ _ _ _ _ _ _ _ rfl rfl rfl rfl rfl rfl

theorem compute_sea_route_no_origin_spec (factors : EmissionFactors ℝ)
    (dest_port : Option (Hub ℝ)) (road1 road2 : Option (RoadRoute ℝ))
    (origin destination : Coordinates ℝ) (weight_kg : ℝ)
    (origin_name destination_name : String) :
    ∃ rt, compute_sea_route factors none dest_port road1 road2 origin destination
        weight_kg origin_name destination_name = .ok rt ∧
      rt.is_viable = false ∧ rt.transport_mode = .sea ∧ NotViableOk rt :=
  ⟨_, rfl, rfl, rfl, rfl, rfl, rfl, rfl, rfl⟩

theorem compute_sea_route_no_dest_spec (factors : EmissionFactors ℝ)
    (op : Hub ℝ) (road1 road2 : Option (RoadRoute ℝ))
    (origin destination : Coordinates ℝ) (weight_kg : ℝ)
    (origin_name destination_name : String) :
    ∃ rt, compute_sea_route factors (some op) none road1 road2 origin destination
        weight_kg origin_name destination_name = .ok rt ∧
      rt.is_viable = false ∧ rt.transport_mode = .sea ∧ NotViableOk rt :=
  ⟨_, rfl, rfl, rfl, rfl, rfl, rfl, rfl, rfl⟩

/-- C2: every `MultiModalRoute` produced by the land, air or sea synthesis
satisfies the invariant — not-viable routes (missing hub, short flight)
have no segments, zero totals and a reason set; viable routes have totals
equal to the consistently-rounded sums of the per-segment values (the
emission total exactly equals the sum of the stored segment emissions) and
waypoints listing the intermediate hubs in traversal order. -/
theorem C2_synthesis_invariants (factors : EmissionFactors ℝ)
    (oa da ob db : Hub ℝ) (road0 road1 road2 : Option (RoadRoute ℝ))
    (origin destination : Coordinates ℝ) (weight_kg : ℝ)
    (origin_name destination_name : String)
    (hw : 0 ≤ weight_kg) (hoa : 0 ≤ oa.distance_km) (hda : 0 ≤ da.distance_km)
    (hr0 : ∀ r ∈ road0, 0 ≤ r.distance_km)
    (hr1 : ∀ r ∈ road1, 0 ≤ r.distance_km)
    (hr2 : ∀ r ∈ road2, 0 ≤ r.distance_km)
    (hflight : MIN_FLIGHT_DISTANCE ≤ haversine_distance oa.coordinates da.coordinates)
    (hshort : haversine_distance ob.coordinates db.coordinates < MIN_FLIGHT_DISTANCE) :
    (∃ rt, compute_land_route factors road0 origin destination weight_kg = .ok rt ∧
      rt.is_viable = true ∧ rt.transport_mode = .land ∧ ViableTotalsOk rt ∧
      rt.waypoints = []) ∧
    (∃ rt, compute_air_route factors (some oa) (some da) road1 road2 origin destination
        weight_kg origin_name destination_name = .ok rt ∧
      rt.is_viable = true ∧ rt.transport_mode = .air ∧ ViableTotalsOk rt ∧
      rt.waypoints = [⟨oa.name, "airport", oa.coordinates⟩,
        ⟨da.name, "airport", da.coordinates⟩]) ∧
    (∃ rt, compute_air_route factors none (some da) road1 road2 origin destination
        weight_kg origin_name destination_name = .ok rt ∧
      rt.is_viable = false ∧ rt.transport_mode = .air ∧ NotViableOk rt) ∧
    (∃ rt, compute_air_route factors (some oa) none road1 road2 origin destination
        weight_kg origin_name destination_name = .ok rt ∧
      rt.is_viable = false ∧ rt.transport_mode = .air ∧ NotViableOk rt) ∧
    (∃ rt, compute_air_route factors (some ob) (some db) road1 road2 origin destination
        weight_kg origin_name destination_name = .ok rt ∧
      rt.is_viable = false ∧ rt.transport_mode = .air ∧ NotViableOk rt) ∧
    (∃ rt, compute_sea_route factors (some oa) (some da) road1 road2 origin destination
        weight_kg origin_name destination_name = .ok rt ∧
      rt.is_viable = true ∧ rt.transport_mode = .sea ∧ ViableTotalsOk rt ∧
      rt.waypoints = [⟨oa.name, "port", oa.coordinates⟩,
        ⟨da.name, "port", da.coordinates⟩]) ∧
    (∃ rt, compute_sea_route factors none (some da) road1 road2 origin destination
        weight_kg origin_name destination_name = .ok rt ∧
      rt.is_viable = false ∧ rt.transport_mode = .sea ∧ NotViableOk rt) ∧
    (∃ rt, compute_sea_route factors (some oa) none road1 road2 origin destination
        weight_kg origin_name destination_name = .ok rt ∧
      rt.is_viable = false ∧ rt.transport_mode = .sea ∧ NotViableOk rt) :=
  ⟨compute_land_route_spec factors road0 origin destination weight_kg hw hr0,
    compute_air_route_viable_spec factors oa da road1 road2 origin destination weight_kg
      origin_name destination_name hw hoa hda hr1 hr2 hflight,
    compute_air_route_no_origin_spec factors (some da) road1 road2 origin destination
      weight_kg origin_name destination_name,
    compute_air_route_no_dest_spec factors oa road1 road2 origin destination
      weight_kg origin_name destination_name,
    compute_air_route_short_flight_spec factors ob db road1 road2 origin destination
      weight_kg origin_name destination_name hshort,
    compute_sea_route_viable_spec factors oa da road1 road2 origin destination weight_kg
      origin_name destination_name hw hoa hda hr1 hr2,
    compute_sea_route_no_origin_spec factors (some da) road1 road2 origin destination
      weight_kg origin_name destination_name,
    compute_sea_route_no_dest_spec factors oa road1 road2 origin destination
      weight_kg origin_name destination_name⟩

/-- Concrete hubs for the C2 witness: two on the Greenwich meridian 10° of
latitude apart (flight ≈ 1112 km ≥ 200), and two sharing one point
(flight 0 km < 200). -/
noncomputable def w2_origin_airport : Hub ℝ := ⟨"Alpha Hub", "Alpha Hub, X", ⟨0, 0⟩, 10⟩

noncomputable def w2_dest_airport : Hub ℝ := ⟨"Beta Hub", "Beta Hub, Y", ⟨10, 0⟩, 20⟩

noncomputable def w2_short_a : Hub ℝ := ⟨"Gamma Hub", "Gamma Hub, Z", ⟨0, 0⟩, 5⟩

noncomputable def w2_short_b : Hub ℝ := ⟨"Delta Hub", "Delta Hub, W", ⟨0, 0⟩, 7⟩

theorem w2_flight_ge : MIN_FLIGHT_DISTANCE ≤
    haversine_distance w2_origin_airport.coordinates w2_dest_airport.coordinates := by
  have hπ := Real.pi_gt_d6
  show MIN_FLIGHT_DISTANCE ≤ haversine_distance ⟨0, 0⟩ ⟨10, 0⟩
  have hr : radians ((10 : ℝ) - 0) = Real.pi / 18 := by
    unfold radians
    ring
  have habs : |radians ((10 : ℝ) - 0)| ≤ Real.pi := by
    rw [hr, abs_of_nonneg (by positivity)]
    linarith [Real.pi_pos]
  rw [haversine_distance_same_lon 0 10 0 habs, hr, abs_of_nonneg (by positivity)]
  simp only [MIN_FLIGHT_DISTANCE]
  linarith

theorem w2_short_lt :
    haversine_distance w2_short_a.coordinates w2_short_b.coordinates
      < MIN_FLIGHT_DISTANCE := by
  show haversine_distance ⟨0, 0⟩ ⟨0, 0⟩ < MIN_FLIGHT_DISTANCE
  rw [haversine_self]
  simp only [MIN_FLIGHT_DISTANCE]
  norm_num

/-- C2 witness: the invariants at concrete inputs — the viable air route
between the two meridian hubs, the always-viable land route, and the
not-viable short-flight air route. -/
theorem C2_synthesis_invariants_witness :
    ((0 : ℝ) ≤ 5 ∧ 0 ≤ w2_origin_airport.distance_km ∧ 0 ≤ w2_dest_airport.distance_km ∧
      MIN_FLIGHT_DISTANCE ≤
        haversine_distance w2_origin_airport.coordinates w2_dest_airport.coordinates ∧
      haversine_distance w2_short_a.coordinates w2_short_b.coordinates
        < MIN_FLIGHT_DISTANCE) ∧
    (∃ rt, compute_air_route default_emission_factors (some w2_origin_airport)
        (some w2_dest_airport) none none ⟨0, 0⟩ ⟨10, 0⟩ 5 "O" "D" = .ok rt ∧
      rt.is_viable = true ∧ rt.transport_mode = .air ∧ ViableTotalsOk rt ∧
      rt.waypoints = [⟨w2_origin_airport.name, "airport", w2_origin_airport.coordinates⟩,
        ⟨w2_dest_airport.name, "airport", w2_dest_airport.coordinates⟩]) ∧
    (∃ rt, compute_land_route default_emission_factors none ⟨0, 0⟩ ⟨10, 0⟩ 5 = .ok rt ∧
      rt.is_viable = true ∧ rt.transport_mode = .land ∧ ViableTotalsOk rt ∧
      rt.waypoints = []) ∧
    (∃ rt, compute_air_route default_emission_factors (some w2_short_a) (some w2_short_b)
        none none ⟨0, 0⟩ ⟨10, 0⟩ 5 "O" "D" = .ok rt ∧
      rt.is_viable = false ∧ rt.transport_mode = .air ∧ NotViableOk rt) := by
  have h := C2_synthesis_invariants default_emission_factors w2_origin_airport
    w2_dest_airport w2_short_a w2_short_b none none none ⟨0, 0⟩ ⟨10, 0⟩ 5 "O" "D"
    (by norm_num) (by norm_num [w2_origin_airport]) (by norm_num [w2_dest_airport])
    (by simp) (by simp) (by simp) w2_flight_ge w2_short_lt
  exact ⟨⟨by norm_num, by norm_num [w2_origin_airport], by norm_num [w2_dest_airport],
    w2_flight_ge, w2_short_lt⟩, h.2.1, h.1, h.2.2.2.2.1⟩

/-! ## The name-pattern classifiers (`_is_actual_airport`, `_is_actual_port`)

The source filters geocoding results with `re.search` over a fixed list of
patterns built from literals, `\s+`, `\b`, `?` on one character and `$`.
That fragment is modelled by a small executable matcher. -/

/-- `str.lower()` on the ASCII strings involved (`String.toLower` maps the
character list; spelled out so the kernel can evaluate it). -/
def py_lower (s : String) : String := ⟨s.data.map Char.toLower⟩

/-- Python's `\w` on the ASCII strings involved. -/
def isWordChar (c : Char) : Bool := c.isAlphanum || c == '_'

/-- Python's `\s` on the ASCII strings involved. -/
def isSpaceChar (c : Char) : Bool :=
  c == ' ' || c == '\t' || c == '\n' || c == '\r' || c == '\x0b' || c == '\x0c'

/-- One atom of the pattern fragment used by the source's regexes. -/
inductive PatAtom : Type
  | lit (s : String)
  | ws
  | wb
  | eos
  | opt (c : Char)
deriving DecidableEq, Repr

/-- `\b`: true iff exactly one side is a word character. -/
def boundaryOk (prev next : Option Char) : Bool :=
  let pw := match prev with | some c => isWordChar c | none => false
  let nw := match next with | some c => isWordChar c | none => false
  pw != nw

/-- Match a pattern at the current position (`prev` = preceding character). -/
def matchAtoms : Option Char → List Char → List PatAtom → Bool
  | _, _, [] => true
  | prev, cs, .lit s :: ps =>
    let sl := s.toList
    if sl.isPrefixOf cs then
      matchAtoms (sl.getLast?.elim prev some) (cs.drop sl.length) ps
    else false
  | _, cs, .ws :: ps =>
    let sp := cs.takeWhile isSpaceChar
    if sp.isEmpty then false
    else matchAtoms (some ' ') (cs.dropWhile isSpaceChar) ps
  | prev, cs, .wb :: ps =>
    if boundaryOk prev cs.head? then matchAtoms prev cs ps else false
  | prev, cs, .eos :: ps =>
    if cs.isEmpty then matchAtoms prev cs ps else false
  | prev, cs, .opt c :: ps =>
    (match cs with
      | c' :: rest => if c' = c then matchAtoms (some c) rest ps else false
      | [] => false) || matchAtoms prev cs ps

def searchAux (p : List PatAtom) : Option Char → List Char → Bool
  | prev, [] => matchAtoms prev [] p
  | prev, c :: rest => matchAtoms prev (c :: rest) p || searchAux p (some c) rest

/-- `re.search(pattern, s)` for the pattern fragment. -/
def re_search (p : List PatAtom) (s : String) : Bool := searchAux p none s.toList

/-- The `exclude_patterns` of `_is_actual_airport`. -/
def airport_exclude_patterns : List (List PatAtom) :=
  [[.lit "airport", .ws, .lit "road"], [.lit "airport", .ws, .lit "rd"],
   [.lit "airport", .ws, .lit "roundabout"], [.lit "airport", .ws, .lit "street"],
   [.lit "airport", .ws, .lit "st"], [.lit "airport", .ws, .lit "drive"],
   [.lit "airport", .ws, .lit "avenue"], [.lit "airport", .ws, .lit "ave"],
   [.lit "airport", .ws, .lit "lane"], [.lit "airport", .ws, .lit "boulevard"],
   [.lit "airport", .ws, .lit "blvd"], [.lit "airport", .ws, .lit "highway"],
   [.lit "airport", .ws, .lit "way"], [.lit "airport", .ws, .lit "area"]]

/-- The `airport_patterns` of `_is_actual_airport`. -/
def airport_accept_patterns : List (List PatAtom) :=
  [[.wb, .lit "airport", .wb, .eos],
   [.wb, .lit "airport", .ws, .lit "arrival", .opt 's', .wb],
   [.wb, .lit "airport", .ws, .lit "departure", .opt 's', .wb],
   [.wb, .lit "airport", .ws, .lit "terminal", .wb],
   [.wb, .lit "international", .ws, .lit "airport", .wb],
   [.wb, .lit "domestic", .ws, .lit "airport", .wb],
   [.wb, .lit "aerodrome", .wb],
   [.wb, .lit "airfield", .wb]]

/-- `RouteService._is_actual_airport`. -/
def is_actual_airport (name full_name : String) : Bool :=
  let name_lower := py_lower name
  let full_lower := py_lower full_name
  let combined := name_lower ++ " " ++ full_lower
  if airport_exclude_patterns.any (fun p => re_search p combined) then false
  else airport_accept_patterns.any
    (fun p => re_search p name_lower || re_search p full_lower)

/-- The `exclude_patterns` of `_is_actual_port`. -/
def port_exclude_patterns : List (List PatAtom) :=
  [[.lit "port", .ws, .lit "road"], [.lit "port", .ws, .lit "street"],
   [.lit "port", .ws, .lit "avenue"], [.lit "port", .ws, .lit "drive"],
   [.lit "port", .ws, .lit "lane"], [.lit "port", .ws, .lit "way"],
   [.lit "port", .ws, .lit "view"], [.lit "port", .ws, .lit "side"]]

/-- The `port_patterns` of `_is_actual_port`. -/
def port_accept_patterns : List (List PatAtom) :=
  [[.wb, .lit "port", .wb, .eos],
   [.wb, .lit "port", .ws, .lit "of", .wb],
   [.wb, .lit "seaport", .wb],
   [.wb, .lit "harbo", .opt 'u', .lit "r", .wb, .eos],
   [.wb, .lit "harbo", .opt 'u', .lit "r", .ws, .lit "terminal", .wb],
   [.wb, .lit "container", .ws, .lit "terminal", .wb],
   [.wb, .lit "maritime", .ws, .lit "terminal", .wb],
   [.wb, .lit "wharf", .wb],
   [.wb, .lit "dock", .wb],
   [.wb, .lit "pier", .wb],
   [.wb, .lit "jebel", .ws, .lit "ali", .wb]]

/-- `RouteService._is_actual_port`. -/
def is_actual_port (name full_name : String) : Bool :=
  let name_lower := py_lower name
  let full_lower := py_lower full_name
  let combined := name_lower ++ " " ++ full_lower
  if port_exclude_patterns.any (fun p => re_search p combined) then false
  else port_accept_patterns.any
    (fun p => re_search p name_lower || re_search p full_lower)

/-! ## Curated hub tables (`KNOWN_AIRPORTS`, `KNOWN_PORTS`)

The dicts preserve insertion order; they are modelled as lists in source
order, with exact-decimal rational coordinates. -/

/-- One entry of a curated table: `(lat, lon) → {name, city}`. -/
structure KnownHub : Type where
  lat : ℚ
  lon : ℚ
  name : String
  city : String
deriving DecidableEq, Repr

/-- `RouteService.KNOWN_AIRPORTS` in source order. -/
def KNOWN_AIRPORTS : List KnownHub :=
  [⟨28.5562, 77.1000, "Indira Gandhi International Airport", "New Delhi"⟩,
   ⟨19.0896, 72.8656, "Chhatrapati Shivaji Maharaj International Airport", "Mumbai"⟩,
   ⟨12.9941, 77.7064, "Kempegowda International Airport", "Bengaluru"⟩,
   ⟨13.0827, 80.2707, "Chennai International Airport", "Chennai"⟩,
   ⟨22.6520, 88.4463, "Netaji Subhas Chandra Bose International Airport", "Kolkata"⟩,
   ⟨17.2403, 78.4294, "Rajiv Gandhi International Airport", "Hyderabad"⟩,
   ⟨26.8242, 75.8122, "Jaipur International Airport", "Jaipur"⟩,
   ⟨23.0728, 72.6347, "Sardar Vallabhbhai Patel International Airport", "Ahmedabad"⟩,
   ⟨15.3808, 73.8314, "Goa International Airport", "Goa"⟩,
   ⟨25.2528, 55.3644, "Dubai International Airport", "Dubai"⟩,
   ⟨24.4539, 54.6511, "Abu Dhabi International Airport", "Abu Dhabi"⟩,
   ⟨25.3287, 55.5172, "Sharjah International Airport", "Sharjah"⟩,
   ⟨51.4700, -0.4543, "Heathrow Airport", "London"⟩,
   ⟨51.1537, -0.1821, "Gatwick Airport", "London"⟩,
   ⟨51.8747, -0.3683, "Luton Airport", "London"⟩,
   ⟨51.5048, 0.0495, "London City Airport", "London"⟩,
   ⟨53.3537, -2.2750, "Manchester Airport", "Manchester"⟩,
   ⟨55.9500, -3.3725, "Edinburgh Airport", "Edinburgh"⟩,
   ⟨40.6413, -73.7781, "JFK International Airport", "New York"⟩,
   ⟨40.7769, -73.8740, "LaGuardia Airport", "New York"⟩,
   ⟨33.9425, -118.4081, "Los Angeles International Airport", "Los Angeles"⟩,
   ⟨41.9742, -87.9073, "O'Hare International Airport", "Chicago"⟩,
   ⟨37.6213, -122.3790, "San Francisco International Airport", "San Francisco"⟩,
   ⟨48.1103, 16.5697, "Vienna International Airport", "Vienna"⟩,
   ⟨52.5597, 13.2877, "Berlin Brandenburg Airport", "Berlin"⟩,
   ⟨50.0379, 8.5622, "Frankfurt Airport", "Frankfurt"⟩,
   ⟨48.3538, 11.7861, "Munich Airport", "Munich"⟩,
   ⟨49.0097, 2.5479, "Charles de Gaulle Airport", "Paris"⟩,
   ⟨52.3105, 4.7683, "Amsterdam Schiphol Airport", "Amsterdam"⟩,
   ⟨41.2971, 2.0785, "Barcelona–El Prat Airport", "Barcelona"⟩,
   ⟨40.4983, -3.5676, "Madrid–Barajas Airport", "Madrid"⟩,
   ⟨41.8003, 12.2389, "Rome Fiumicino Airport", "Rome"⟩,
   ⟨35.5494, 139.7798, "Tokyo Haneda Airport", "Tokyo"⟩,
   ⟨35.7720, 140.3929, "Narita International Airport", "Tokyo"⟩,
   ⟨22.3080, 113.9185, "Hong Kong International Airport", "Hong Kong"⟩,
   ⟨1.3644, 103.9915, "Singapore Changi Airport", "Singapore"⟩,
   ⟨13.6900, 100.7501, "Suvarnabhumi Airport", "Bangkok"⟩,
   ⟨37.4602, 126.4407, "Incheon International Airport", "Seoul"⟩,
   ⟨31.1443, 121.8083, "Shanghai Pudong International Airport", "Shanghai"⟩,
   ⟨40.0799, 116.6031, "Beijing Capital International Airport", "Beijing"⟩,
   ⟨-33.9399, 151.1753, "Sydney Kingsford Smith Airport", "Sydney"⟩,
   ⟨-37.6733, 144.8433, "Melbourne Airport", "Melbourne"⟩,
   ⟨29.0344, 40.0994, "King Fahd International Airport", "Dammam"⟩,
   ⟨24.9578, 46.6989, "King Khalid International Airport", "Riyadh"⟩,
   ⟨21.6805, 39.1566, "King Abdulaziz International Airport", "Jeddah"⟩,
   ⟨25.2731, 51.6081, "Hamad International Airport", "Doha"⟩]

/-- `RouteService.KNOWN_PORTS` in source order. -/
def KNOWN_PORTS : List KnownHub :=
  [⟨18.9542, 72.8479, "Jawaharlal Nehru Port", "Mumbai"⟩,
   ⟨13.0878, 80.2915, "Chennai Port", "Chennai"⟩,
   ⟨22.2350, 68.9671, "Kandla Port", "Kandla"⟩,
   ⟨15.4208, 73.8000, "Mormugao Port", "Goa"⟩,
   ⟨8.4855, 76.9492, "Thiruvananthapuram Port", "Thiruvananthapuram"⟩,
   ⟨25.0657, 55.1306, "Jebel Ali Port", "Dubai"⟩,
   ⟨25.2697, 55.2963, "Port Rashid", "Dubai"⟩,
   ⟨24.5198, 54.4050, "Khalifa Port", "Abu Dhabi"⟩,
   ⟨51.9500, 4.1500, "Port of Rotterdam", "Rotterdam"⟩,
   ⟨53.5503, 9.9936, "Port of Hamburg", "Hamburg"⟩,
   ⟨51.2277, 4.4003, "Port of Antwerp", "Antwerp"⟩,
   ⟨43.1000, 5.9333, "Port of Marseille", "Marseille"⟩,
   ⟨41.3500, 2.1833, "Port of Barcelona", "Barcelona"⟩,
   ⟨51.5074, 0.1278, "Port of London", "London"⟩,
   ⟨22.2783, 114.1747, "Hong Kong Port", "Hong Kong"⟩,
   ⟨1.2655, 103.8200, "Port of Singapore", "Singapore"⟩,
   ⟨31.2304, 121.4737, "Port of Shanghai", "Shanghai"⟩,
   ⟨35.4437, 139.6380, "Port of Yokohama", "Yokohama"⟩,
   ⟨37.4563, 126.7052, "Incheon Port", "Seoul"⟩,
   ⟨33.7490, -118.2689, "Port of Los Angeles", "Los Angeles"⟩,
   ⟨32.7157, -117.1611, "Port of San Diego", "San Diego"⟩,
   ⟨40.6892, -74.0445, "Port of New York", "New York"⟩,
   ⟨25.7617, -80.1918, "Port of Miami", "Miami"⟩,
   ⟨29.7604, -95.3698, "Port of Houston", "Houston"⟩]

/-- The entry's coordinates as the real pair the distance code consumes. -/
noncomputable def hub_coordinates (e : KnownHub) : Coordinates ℝ :=
  ⟨(e.lat : ℝ), (e.lon : ℝ)⟩

noncomputable def MAX_AIRPORT_DISTANCE : ℝ := 200.0

noncomputable def MAX_PORT_DISTANCE_NEARBY : ℝ := 200.0

noncomputable def MAX_PORT_DISTANCE_INLAND : ℝ := 1500.0

/-- The scan loop shared by `_find_nearest_known_airport` and
`_find_nearest_known_port`: keep the nearest entry within `max_distance`
(Python's `best_distance` starts at infinity, so with no best yet only the
radius test applies). -/
noncomputable def known_hub_fold (location : Coordinates ℝ) (max_distance : ℝ) :
    List KnownHub → Option (Hub ℝ) → Option (Hub ℝ)
  | [], best => best
  | e :: rest, best =>
    let distance := haversine_distance location (hub_coordinates e)
    match best with
    | none =>
      if distance ≤ max_distance then
        known_hub_fold location max_distance rest
          (some ⟨e.name, e.name ++ ", " ++ e.city, hub_coordinates e, distance⟩)
      else
        known_hub_fold location max_distance rest none
    | some b =>
      if distance ≤ max_distance ∧ distance < b.distance_km then
        known_hub_fold location max_distance rest
          (some ⟨e.name, e.name ++ ", " ++ e.city, hub_coordinates e, distance⟩)
      else
        known_hub_fold location max_distance rest (some b)

/-- `RouteService._find_nearest_known_airport`. -/
noncomputable def find_nearest_known_airport (location : Coordinates ℝ) : Option (Hub ℝ) :=
  known_hub_fold location MAX_AIRPORT_DISTANCE KNOWN_AIRPORTS none

/-- `RouteService._find_nearest_known_port`. -/
noncomputable def find_nearest_known_port (location : Coordinates ℝ)
    (max_distance : ℝ) : Option (Hub ℝ) :=
  known_hub_fold location max_distance KNOWN_PORTS none

/-! ## The geocoding-backed resolvers (`_find_nearest_airport`,
`_find_nearest_port`)

`_geocode_search_with_country(query, location, country_code)` is a network
call; within one resolver invocation `location` and `country_code` are
fixed, so the call is modelled as an oracle `geocode : String → List
GeoResult` indexed by the query text. -/

/-- One feature of a geocoding response (name, place_name, coordinates,
place_type). -/
structure GeoResult : Type where
  name : String
  full_name : String
  coordinates : Coordinates ℝ
  place_type : List String

/-- A geocoding result dict after `result["distance_km"] = distance`. -/
noncomputable def geo_hub (r : GeoResult × ℝ) : Hub ℝ :=
  ⟨r.1.name, r.1.full_name, r.1.coordinates, r.2⟩

/-- The inner result loop of `_find_nearest_airport`: `.inr` is the
`distance < 50` early return, `.inl` the best candidate so far. -/
noncomputable def airport_scan_results (location : Coordinates ℝ) :
    List GeoResult → Option (GeoResult × ℝ) →
      (Option (GeoResult × ℝ)) ⊕ (GeoResult × ℝ)
  | [], best => .inl best
  | r :: rest, best =>
    if is_actual_airport r.name r.full_name = true then
      let distance := haversine_distance location r.coordinates
      match best with
      | none =>
        if distance ≤ MAX_AIRPORT_DISTANCE then
          if distance < 50 then .inr (r, distance)
          else airport_scan_results location rest (some (r, distance))
        else airport_scan_results location rest none
      | some b =>
        if distance ≤ MAX_AIRPORT_DISTANCE ∧ distance < b.2 then
          if distance < 50 then .inr (r, distance)
          else airport_scan_results location rest (some (r, distance))
        else airport_scan_results location rest (some b)
    else airport_scan_results location rest best

/-- The query loop of `_find_nearest_airport`. -/
noncomputable def airport_scan_queries (location : Coordinates ℝ)
    (geocode : String → List GeoResult) :
    List String → Option (GeoResult × ℝ) →
      (Option (GeoResult × ℝ)) ⊕ (GeoResult × ℝ)
  | [], best => .inl best
  | q :: qs, best =>
    match airport_scan_results location (geocode q) best with
    | .inr hit => .inr hit
    | .inl best' => airport_scan_queries location geocode qs best'

/-- `city_name` from `location_name` (`parts[0]` of the stripped split). -/
def resolver_city_name (location_name : String) : String :=
  (((location_name.splitOn ",").map (fun p => p.trim)).headD "Unknown")

/-- The `search_queries` of `_find_nearest_airport`. -/
def airport_search_queries (location_name : String) : List String :=
  [resolver_city_name location_name ++ " International Airport",
   resolver_city_name location_name ++ " Airport",
   "International Airport"]

/-- `RouteService._find_nearest_airport`. -/
noncomputable def find_nearest_airport (geocode : String → List GeoResult)
    (location : Coordinates ℝ) (location_name : String) : Option (Hub ℝ) :=
  match find_nearest_known_airport location with
  | some ka =>
    if ka.distance_km < 100 then some ka
    else
      match airport_scan_queries location geocode
          (airport_search_queries location_name) none with
      | .inr hit => some (geo_hub hit)
      | .inl none => some ka
      | .inl (some best) =>
        if ka.distance_km ≤ (geo_hub best).distance_km then some ka
        else some (geo_hub best)
  | none =>
    match airport_scan_queries location geocode
        (airport_search_queries location_name) none with
    | .inr hit => some (geo_hub hit)
    | .inl none => none
    | .inl (some best) => some (geo_hub best)

/-- The inner result loop of `_find_nearest_port` (no early return). -/
noncomputable def port_scan_results (location : Coordinates ℝ) :
    List GeoResult → Option (GeoResult × ℝ) → Option (GeoResult × ℝ)
  | [], best => best
  | r :: rest, best =>
    if is_actual_port r.name r.full_name = true then
      let distance := haversine_distance location r.coordinates
      match best with
      | none =>
        if distance ≤ MAX_PORT_DISTANCE_NEARBY then
          port_scan_results location rest (some (r, distance))
        else port_scan_results location rest none
      | some b =>
        if distance ≤ MAX_PORT_DISTANCE_NEARBY ∧ distance < b.2 then
          port_scan_results location rest (some (r, distance))
        else port_scan_results location rest (some b)
    else port_scan_results location rest best

/-- The query loop of `_find_nearest_port`. -/
noncomputable def port_scan_queries (location : Coordinates ℝ)
    (geocode : String → List GeoResult) :
    List String → Option (GeoResult × ℝ) → Option (GeoResult × ℝ)
  | [], best => best
  | q :: qs, best =>
    port_scan_queries location geocode qs (port_scan_results location (geocode q) best)

/-- The `search_queries` of `_find_nearest_port`. -/
def port_search_queries (location_name : String) : List String :=
  [resolver_city_name location_name ++ " Port",
   "Port of " ++ resolver_city_name location_name,
   resolver_city_name location_name ++ " Seaport"]

/-- `RouteService._find_nearest_port`. -/
noncomputable def find_nearest_port (geocode : String → List GeoResult)
    (location : Coordinates ℝ) (location_name : String) : Option (Hub ℝ) :=
  match find_nearest_known_port location MAX_PORT_DISTANCE_NEARBY with
  | some nearby_port => some nearby_port
  | none =>
    match port_scan_queries location geocode
        (port_search_queries location_name) none with
    | some best => some (geo_hub best)
    | none =>
      match find_nearest_known_port location MAX_PORT_DISTANCE_INLAND with
      | some inland_port => some inland_port
      | none => none

/-! ## Invariants of the curated-table scan -/

theorem known_hub_fold_isSome_of_best (location : Coordinates ℝ) (md : ℝ) :
    ∀ (l : List KnownHub) (b : Hub ℝ),
      (known_hub_fold location md l (some b)).isSome = true := by
  intro l
  induction l with
  | nil => intro b; rfl
  | cons e rest ih =>
    intro b
    simp only [known_hub_fold]
    split_ifs with h
    · exact ih _
    · exact ih _

theorem known_hub_fold_some_le (location : Coordinates ℝ) (md : ℝ) :
    ∀ (l : List KnownHub) (best : Option (Hub ℝ)),
      (∀ b, best = some b → b.distance_km ≤ md) →
      ∀ r, known_hub_fold location md l best = some r → r.distance_km ≤ md := by
  intro l
  induction l with
  | nil => intro best hb r hr; exact hb r hr
  | cons e rest ih =>
    intro best hb r hr
    cases best with
    | none =>
      simp only [known_hub_fold] at hr
      split_ifs at hr with h
      · exact ih _ (fun b hb' => by injection hb' with h'; subst h'; exact h) r hr
      · exact ih _ (fun b hb' => Option.noConfusion hb') r hr
    | some b0 =>
      simp only [known_hub_fold] at hr
      split_ifs at hr with h
      · exact ih _ (fun b hb' => by injection hb' with h'; subst h'; exact h.1) r hr
      · exact ih _ (fun b hb' => by injection hb' with h'; subst h'; exact hb b0 rfl) r hr

theorem known_hub_fold_le_best (location : Coordinates ℝ) (md : ℝ) :
    ∀ (l : List KnownHub) (b r : Hub ℝ),
      known_hub_fold location md l (some b) = some r →
      r.distance_km ≤ b.distance_km := by
  intro l
  induction l with
  | nil =>
    intro b r hr
    injection hr with h
    subst h
    exact le_rfl
  | cons e rest ih =>
    intro b r hr
    simp only [known_hub_fold] at hr
    split_ifs at hr with h
    · exact le_trans (ih _ r hr) (le_of_lt h.2)
    · exact ih _ r hr

theorem known_hub_fold_le_mem (location : Coordinates ℝ) (md : ℝ) :
    ∀ (l : List KnownHub) (best : Option (Hub ℝ)) (r : Hub ℝ),
      known_hub_fold location md l best = some r →
      ∀ e ∈ l, haversine_distance location (hub_coordinates e) ≤ md →
        r.distance_km ≤ haversine_distance location (hub_coordinates e) := by
  intro l
  induction l with
  | nil => intro best r _ e he; exact absurd he (List.not_mem_nil e)
  | cons a rest ih =>
    intro best r hr e he hd
    rcases List.mem_cons.mp he with rfl | hmem
    · cases best with
      | none =>
        simp only [known_hub_fold] at hr
        rw [if_pos hd] at hr
        exact known_hub_fold_le_best location md rest _ r hr
      | some b =>
        simp only [known_hub_fold] at hr
        by_cases h : haversine_distance location (hub_coordinates e) ≤ md ∧
            haversine_distance location (hub_coordinates e) < b.distance_km
        · rw [if_pos h] at hr
          exact known_hub_fold_le_best location md rest _ r hr
        · rw [if_neg h] at hr
          have hb : b.distance_km ≤ haversine_distance location (hub_coordinates e) :=
            le_of_not_lt fun hlt => h ⟨hd, hlt⟩
          exact le_trans (known_hub_fold_le_best location md rest b r hr) hb
    · cases best with
      | none =>
        simp only [known_hub_fold] at hr
        split_ifs at hr
        · exact ih _ r hr e hmem hd
        · exact ih _ r hr e hmem hd
      | some b =>
        simp only [known_hub_fold] at hr
        split_ifs at hr
        · exact ih _ r hr e hmem hd
        · exact ih _ r hr e hmem hd

theorem known_hub_fold_none_of (location : Coordinates ℝ) (md : ℝ) :
    ∀ (l : List KnownHub),
      (∀ e ∈ l, md < haversine_distance location (hub_coordinates e)) →
      known_hub_fold location md l none = none := by
  intro l
  induction l with
  | nil => intro _; rfl
  | cons e rest ih =>
    intro h
    simp only [known_hub_fold]
    rw [if_neg (not_le.mpr (h e (List.mem_cons_self e rest)))]
    exact ih fun x hx => h x (List.mem_cons_of_mem e hx)

theorem known_hub_fold_isSome_of_mem (location : Coordinates ℝ) (md : ℝ) :
    ∀ (l : List KnownHub) (best : Option (Hub ℝ)) (e : KnownHub), e ∈ l →
      haversine_distance location (hub_coordinates e) ≤ md →
      (known_hub_fold location md l best).isSome = true := by
  intro l
  induction l with
  | nil => intro best e he; exact absurd he (List.not_mem_nil e)
  | cons a rest ih =>
    intro best e he hd
    rcases List.mem_cons.mp he with rfl | hmem
    · cases best with
      | none =>
        simp only [known_hub_fold]
        rw [if_pos hd]
        exact known_hub_fold_isSome_of_best location md rest _
      | some b =>
        simp only [known_hub_fold]
        split_ifs
        · exact known_hub_fold_isSome_of_best location md rest _
        · exact known_hub_fold_isSome_of_best location md rest _
    · cases best with
      | none =>
        simp only [known_hub_fold]
        split_ifs
        · exact known_hub_fold_isSome_of_best location md rest _
        · exact ih none e hmem hd
      | some b =>
        simp only [known_hub_fold]
        split_ifs
        · exact known_hub_fold_isSome_of_best location md rest _
        · exact known_hub_fold_isSome_of_best location md rest _

theorem find_nearest_known_airport_none_iff (location : Coordinates ℝ) :
    find_nearest_known_airport location = none ↔
      ∀ e ∈ KNOWN_AIRPORTS,
        MAX_AIRPORT_DISTANCE < haversine_distance location (hub_coordinates e) := by
  constructor
  · intro h e he
    by_contra hle
    have hs := known_hub_fold_isSome_of_mem location MAX_AIRPORT_DISTANCE KNOWN_AIRPORTS
      none e he (le_of_not_lt hle)
    simp only [find_nearest_known_airport] at h
    rw [h] at hs
    exact Bool.noConfusion hs
  · exact known_hub_fold_none_of location MAX_AIRPORT_DISTANCE KNOWN_AIRPORTS

theorem find_nearest_known_port_none_iff (location : Coordinates ℝ) (md : ℝ) :
    find_nearest_known_port location md = none ↔
      ∀ e ∈ KNOWN_PORTS, md < haversine_distance location (hub_coordinates e) := by
  constructor
  · intro h e he
    by_contra hle
    have hs := known_hub_fold_isSome_of_mem location md KNOWN_PORTS
      none e he (le_of_not_lt hle)
    simp only [find_nearest_known_port] at h
    rw [h] at hs
    exact Bool.noConfusion hs
  · exact known_hub_fold_none_of location md KNOWN_PORTS

theorem find_nearest_known_port_isSome_iff (location : Coordinates ℝ) (md : ℝ) :
    (find_nearest_known_port location md).isSome = true ↔
      ∃ e ∈ KNOWN_PORTS, haversine_distance location (hub_coordinates e) ≤ md := by
  constructor
  · intro h
    by_contra hne
    push_neg at hne
    have hnone := known_hub_fold_none_of location md KNOWN_PORTS hne
    simp only [find_nearest_known_port] at h
    rw [hnone] at h
    exact Bool.noConfusion h
  · rintro ⟨e, he, hd⟩
    exact known_hub_fold_isSome_of_mem location md KNOWN_PORTS none e he hd

/-! ## Invariants of the geocoded airport scan -/

theorem airport_scan_results_inv (location : Coordinates ℝ) :
    ∀ (l : List GeoResult) (best : Option (GeoResult × ℝ)),
      (∀ b, best = some b → b.2 ≤ MAX_AIRPORT_DISTANCE) →
      (∀ b, airport_scan_results location l best = .inl (some b) →
          b.2 ≤ MAX_AIRPORT_DISTANCE) ∧
      (∀ h, airport_scan_results location l best = .inr h →
          h.2 ≤ MAX_AIRPORT_DISTANCE ∧ h.2 < 50) := by
  intro l
  induction l with
  | nil =>
    intro best hb
    refine ⟨fun b hr => ?_, fun h hr => Sum.noConfusion hr⟩
    injection hr with h'
    exact hb b h'
  | cons r rest ih =>
    intro best hb
    by_cases hf : is_actual_airport r.name r.full_name = true
    · cases best with
      | none =>
        simp only [airport_scan_results, if_pos hf]
        by_cases h200 : haversine_distance location r.coordinates ≤ MAX_AIRPORT_DISTANCE
        · rw [if_pos h200]
          by_cases h50 : haversine_distance location r.coordinates < 50
          · rw [if_pos h50]
            refine ⟨fun b hr => Sum.noConfusion hr, fun h hr => ?_⟩
            injection hr with h'
            subst h'
            exact ⟨h200, h50⟩
          · rw [if_neg h50]
            exact ih _ fun b hb' => by injection hb' with h'; subst h'; exact h200
        · rw [if_neg h200]
          exact ih _ fun b hb' => Option.noConfusion hb'
      | some b0 =>
        simp only [airport_scan_results, if_pos hf]
        by_cases hcond : haversine_distance location r.coordinates ≤ MAX_AIRPORT_DISTANCE ∧
            haversine_distance location r.coordinates < b0.2
        · rw [if_pos hcond]
          by_cases h50 : haversine_distance location r.coordinates < 50
          · rw [if_pos h50]
            refine ⟨fun b hr => Sum.noConfusion hr, fun h hr => ?_⟩
            injection hr with h'
            subst h'
            exact ⟨hcond.1, h50⟩
          · rw [if_neg h50]
            exact ih _ fun b hb' => by injection hb' with h'; subst h'; exact hcond.1
        · rw [if_neg hcond]
          exact ih _ fun b hb' => by injection hb' with h'; subst h'; exact hb b0 rfl
    · simp only [airport_scan_results, if_neg hf]
      exact ih best hb

theorem airport_scan_queries_inv (location : Coordinates ℝ)
    (geocode : String → List GeoResult) :
    ∀ (qs : List String) (best : Option (GeoResult × ℝ)),
      (∀ b, best = some b → b.2 ≤ MAX_AIRPORT_DISTANCE) →
      (∀ b, airport_scan_queries location geocode qs best = .inl (some b) →
          b.2 ≤ MAX_AIRPORT_DISTANCE) ∧
      (∀ h, airport_scan_queries location geocode qs best = .inr h →
          h.2 ≤ MAX_AIRPORT_DISTANCE ∧ h.2 < 50) := by
  intro qs
  induction qs with
  | nil =>
    intro best hb
    refine ⟨fun b hr => ?_, fun h hr => Sum.noConfusion hr⟩
    injection hr with h'
    exact hb b h'
  | cons q qrest ih =>
    intro best hb
    have hstep := airport_scan_results_inv location (geocode q) best hb
    rcases hres : airport_scan_results location (geocode q) best with best' | hit
    · simp only [airport_scan_queries, hres]
      exact ih best' fun b hb' => hstep.1 b (by rw [← hb']; exact hres)
    · simp only [airport_scan_queries, hres]
      refine ⟨fun b hr => Sum.noConfusion hr, fun h hr => ?_⟩
      injection hr with h'
      subst h'
      exact hstep.2 hit hres

theorem airport_scan_results_none (location : Coordinates ℝ) :
    ∀ (l : List GeoResult) (best : Option (GeoResult × ℝ)),
      airport_scan_results location l best = .inl none →
      best = none ∧ ∀ r ∈ l, is_actual_airport r.name r.full_name = true →
        MAX_AIRPORT_DISTANCE < haversine_distance location r.coordinates := by
  intro l
  induction l with
  | nil =>
    intro best hr
    refine ⟨?_, fun r hr' => absurd hr' (List.not_mem_nil r)⟩
    injection hr
  | cons r rest ih =>
    intro best hres
    by_cases hf : is_actual_airport r.name r.full_name = true
    · cases best with
      | none =>
        simp only [airport_scan_results, if_pos hf] at hres
        by_cases h200 : haversine_distance location r.coordinates ≤ MAX_AIRPORT_DISTANCE
        · rw [if_pos h200] at hres
          by_cases h50 : haversine_distance location r.coordinates < 50
          · rw [if_pos h50] at hres
            exact Sum.noConfusion hres
          · rw [if_neg h50] at hres
            exact absurd (ih _ hres).1 (fun h => Option.noConfusion h)
        · rw [if_neg h200] at hres
          obtain ⟨h1, h2⟩ := ih _ hres
          refine ⟨rfl, fun x hx hax => ?_⟩
          rcases List.mem_cons.mp hx with rfl | hmem
          · exact lt_of_not_le h200
          · exact h2 x hmem hax
      | some b =>
        simp only [airport_scan_results, if_pos hf] at hres
        by_cases hcond : haversine_distance location r.coordinates ≤ MAX_AIRPORT_DISTANCE ∧
            haversine_distance location r.coordinates < b.2
        · rw [if_pos hcond] at hres
          by_cases h50 : haversine_distance location r.coordinates < 50
          · rw [if_pos h50] at hres
            exact Sum.noConfusion hres
          · rw [if_neg h50] at hres
            exact absurd (ih _ hres).1 (fun h => Option.noConfusion h)
        · rw [if_neg hcond] at hres
          exact absurd (ih _ hres).1 (fun h => Option.noConfusion h)
    · simp only [airport_scan_results, if_neg hf] at hres
      obtain ⟨h1, h2⟩ := ih best hres
      refine ⟨h1, fun x hx hax => ?_⟩
      rcases List.mem_cons.mp hx with rfl | hmem
      · exact absurd hax hf
      · exact h2 x hmem hax

theorem airport_scan_queries_none (location : Coordinates ℝ)
    (geocode : String → List GeoResult) :
    ∀ (qs : List String) (best : Option (GeoResult × ℝ)),
      airport_scan_queries location geocode qs best = .inl none →
      best = none ∧ ∀ q ∈ qs, ∀ r ∈ geocode q,
        is_actual_airport r.name r.full_name = true →
          MAX_AIRPORT_DISTANCE < haversine_distance location r.coordinates := by
  intro qs
  induction qs with
  | nil =>
    intro best hr
    refine ⟨?_, fun q hq => absurd hq (List.not_mem_nil q)⟩
    injection hr
  | cons q qrest ih =>
    intro best hres
    rcases hr : airport_scan_results location (geocode q) best with best' | hit
    · simp only [airport_scan_queries, hr] at hres
      obtain ⟨h1, h2⟩ := ih best' hres
      subst h1
      obtain ⟨hb, hq⟩ := airport_scan_results_none location (geocode q) best hr
      refine ⟨hb, fun x hx r hrx hax => ?_⟩
      rcases List.mem_cons.mp hx with rfl | hmem
      · exact hq r hrx hax
      · exact h2 x hmem r hrx hax
    · simp only [airport_scan_queries, hr] at hres
      exact Sum.noConfusion hres

/-- C3 (amended): for every geocoding oracle, query point and place name, the
airport resolver (i) returns only hubs within the 200 km radius; (ii) returns
the nearest curated airport immediately — independently of geocoding — when it
is closer than 100 km; (iii) returns nothing only when no curated airport and
no accepted geocoded candidate lies within the radius; (iv) when the curated
nearest is at 100 km or more and the geocoded scan runs to completion, returns
whichever of the two is nearer (ties to the curated entry); but (v) a geocoded
candidate closer than 50 km is returned the moment it is scanned, even if a
nearer candidate (of the same or a later query) was still to come. -/
theorem C3_airport_resolver_policy (geocode : String → List GeoResult)
    (location : Coordinates ℝ) (location_name : String) :
    (∀ hub, find_nearest_airport geocode location location_name = some hub →
        hub.distance_km ≤ MAX_AIRPORT_DISTANCE) ∧
    (∀ ka, find_nearest_known_airport location = some ka → ka.distance_km < 100 →
        find_nearest_airport geocode location location_name = some ka) ∧
    (find_nearest_airport geocode location location_name = none →
        (∀ e ∈ KNOWN_AIRPORTS,
            MAX_AIRPORT_DISTANCE < haversine_distance location (hub_coordinates e)) ∧
        (∀ q ∈ airport_search_queries location_name, ∀ r ∈ geocode q,
            is_actual_airport r.name r.full_name = true →
            MAX_AIRPORT_DISTANCE < haversine_distance location r.coordinates)) ∧
    (∀ ka best, find_nearest_known_airport location = some ka →
        ¬ ka.distance_km < 100 →
        airport_scan_queries location geocode (airport_search_queries location_name) none
          = .inl (some best) →
        find_nearest_airport geocode location location_name =
          if ka.distance_km ≤ (geo_hub best).distance_km then some ka
          else some (geo_hub best)) ∧
    (∀ hit, airport_scan_queries location geocode (airport_search_queries location_name) none
          = .inr hit →
        (∀ ka, find_nearest_known_airport location = some ka → ¬ ka.distance_km < 100) →
        find_nearest_airport geocode location location_name = some (geo_hub hit) ∧
          hit.2 < 50) := by
  have hq := airport_scan_queries_inv location geocode (airport_search_queries location_name)
    none (fun b hb => Option.noConfusion hb)
  refine ⟨?_, ?_, ?_, ?_, ?_⟩
  · intro hub hres
    rcases hka : find_nearest_known_airport location with _ | ka
    · rcases hscan : airport_scan_queries location geocode
          (airport_search_queries location_name) none with b' | hit
      · cases b' with
        | none =>
          simp only [find_nearest_airport, hka, hscan] at hres
          exact Option.noConfusion hres
        | some best =>
          simp only [find_nearest_airport, hka, hscan] at hres
          injection hres with h'
          subst h'
          exact hq.1 best hscan
      · simp only [find_nearest_airport, hka, hscan] at hres
        injection hres with h'
        subst h'
        exact (hq.2 hit hscan).1
    · have hka200 : ka.distance_km ≤ MAX_AIRPORT_DISTANCE :=
        known_hub_fold_some_le location MAX_AIRPORT_DISTANCE KNOWN_AIRPORTS none
          (fun b hb => Option.noConfusion hb) ka hka
      by_cases h100 : ka.distance_km < 100
      · simp only [find_nearest_airport, hka, if_pos h100] at hres
        injection hres with h'
        subst h'
        exact hka200
      · rcases hscan : airport_scan_queries location geocode
            (airport_search_queries location_name) none with b' | hit
        · cases b' with
          | none =>
            simp only [find_nearest_airport, hka, if_neg h100, hscan] at hres
            injection hres with h'
            subst h'
            exact hka200
          | some best =>
            simp only [find_nearest_airport, hka, if_neg h100, hscan] at hres
            split_ifs at hres with hcmp
            · injection hres with h'
              subst h'
              exact hka200
            · injection hres with h'
              subst h'
              exact hq.1 best hscan
        · simp only [find_nearest_airport, hka, if_neg h100, hscan] at hres
          injection hres with h'
          subst h'
          exact (hq.2 hit hscan).1
  · intro ka hka h100
    simp only [find_nearest_airport, hka, if_pos h100]
  · intro hres
    rcases hka : find_nearest_known_airport location with _ | ka
    · rcases hscan : airport_scan_queries location geocode
          (airport_search_queries location_name) none with b' | hit
      · cases b' with
        | none =>
          obtain ⟨-, h2⟩ := airport_scan_queries_none location geocode _ none hscan
          exact ⟨(find_nearest_known_airport_none_iff location).mp hka, h2⟩
        | some best =>
          simp only [find_nearest_airport, hka, hscan] at hres
          exact Option.noConfusion hres
      · simp only [find_nearest_airport, hka, hscan] at hres
        exact Option.noConfusion hres
    · by_cases h100 : ka.distance_km < 100
      · simp only [find_nearest_airport, hka, if_pos h100] at hres
        exact Option.noConfusion hres
      · rcases hscan : airport_scan_queries location geocode
            (airport_search_queries location_name) none with b' | hit
        · cases b' with
          | none =>
            simp only [find_nearest_airport, hka, if_neg h100, hscan] at hres
            exact Option.noConfusion hres
          | some best =>
            simp only [find_nearest_airport, hka, if_neg h100, hscan] at hres
            split_ifs at hres
        · simp only [find_nearest_airport, hka, if_neg h100, hscan] at hres
          exact Option.noConfusion hres
  · intro ka best hka h100 hscan
    simp only [find_nearest_airport, hka, if_neg h100, hscan]
  · intro hit hscan hnot100
    rcases hka : find_nearest_known_airport location with _ | ka
    · refine ⟨?_, (hq.2 hit hscan).2⟩
      simp only [find_nearest_airport, hka, hscan]
    · refine ⟨?_, (hq.2 hit hscan).2⟩
      simp only [find_nearest_airport, hka, if_neg (hnot100 ka hka), hscan]

/-- C10: for every geocoding oracle, query point and place name, (i) the 200 km
curated port lookup succeeds exactly when some curated port lies within 200 km;
(ii) whenever it succeeds the resolver returns that curated nearest port — for
every geocoding oracle, so no geocoded port (however near) and no 100 km or
50 km threshold is involved — and the returned port is within 200 km and at
minimal distance among the in-radius curated ports; (iii) only when the curated
lookup fails is the geocoded best returned, and the 1500 km inland curated
retry answers only when the geocoded scan also found nothing. -/
theorem C10_port_resolver_policy (geocode : String → List GeoResult)
    (location : Coordinates ℝ) (location_name : String) :
    ((find_nearest_known_port location MAX_PORT_DISTANCE_NEARBY).isSome = true ↔
      ∃ e ∈ KNOWN_PORTS,
        haversine_distance location (hub_coordinates e) ≤ MAX_PORT_DISTANCE_NEARBY) ∧
    (∀ p, find_nearest_known_port location MAX_PORT_DISTANCE_NEARBY = some p →
        find_nearest_port geocode location location_name = some p ∧
        p.distance_km ≤ MAX_PORT_DISTANCE_NEARBY ∧
        ∀ e ∈ KNOWN_PORTS,
          haversine_distance location (hub_coordinates e) ≤ MAX_PORT_DISTANCE_NEARBY →
          p.distance_km ≤ haversine_distance location (hub_coordinates e)) ∧
    (find_nearest_known_port location MAX_PORT_DISTANCE_NEARBY = none →
      (∀ best, port_scan_queries location geocode (port_search_queries location_name) none
            = some best →
          find_nearest_port geocode location location_name = some (geo_hub best)) ∧
      (port_scan_queries location geocode (port_search_queries location_name) none = none →
          find_nearest_port geocode location location_name =
            find_nearest_known_port location MAX_PORT_DISTANCE_INLAND)) := by
  refine ⟨find_nearest_known_port_isSome_iff location MAX_PORT_DISTANCE_NEARBY, ?_, ?_⟩
  · intro p hp
    refine ⟨?_, ?_, ?_⟩
    · simp only [find_nearest_port, hp]
    · exact known_hub_fold_some_le location MAX_PORT_DISTANCE_NEARBY KNOWN_PORTS none
        (fun b hb => Option.noConfusion hb) p hp
    · intro e he hd
      exact known_hub_fold_le_mem location MAX_PORT_DISTANCE_NEARBY KNOWN_PORTS none p hp
        e he hd
  · intro hnone
    constructor
    · intro best hscan
      simp only [find_nearest_port, hnone, hscan]
    · intro hscan
      rcases hinland : find_nearest_known_port location MAX_PORT_DISTANCE_INLAND with _ | ip
      · simp only [find_nearest_port, hnone, hscan, hinland]
      · simp only [find_nearest_port, hnone, hscan, hinland]

/-! ## A lower bound on the haversine distance from the latitude gap -/

theorem cos_radians_nonneg {x : ℝ} (hx : |x| ≤ 90) : 0 ≤ Real.cos (radians x) := by
  rw [abs_le] at hx
  have hπ := Real.pi_pos
  have h1 : (-90 : ℝ) * Real.pi ≤ x * Real.pi :=
    mul_le_mul_of_nonneg_right hx.1 (le_of_lt hπ)
  have h2 : x * Real.pi ≤ 90 * Real.pi :=
    mul_le_mul_of_nonneg_right hx.2 (le_of_lt hπ)
  apply Real.cos_nonneg_of_mem_Icc
  unfold radians
  rw [Set.mem_Icc]
  exact ⟨by linarith, by linarith⟩

theorem haversine_a_le_one (p q : Coordinates ℝ)
    (hp : 0 ≤ Real.cos (radians p.latitude)) (hq : 0 ≤ Real.cos (radians q.latitude)) :
    haversine_a p q ≤ 1 := by
  unfold haversine_a
  rw [← radians_sub q.latitude p.latitude]
  have hhalf : Real.sin ((radians q.latitude - radians p.latitude) / 2) ^ 2 =
      1 / 2 - Real.cos (radians q.latitude - radians p.latitude) / 2 := by
    rw [Real.sin_sq_eq_half_sub,
      show 2 * ((radians q.latitude - radians p.latitude) / 2) =
        radians q.latitude - radians p.latitude by ring]
  have hs1 : Real.sin (radians (q.longitude - p.longitude) / 2) ^ 2 ≤ 1 :=
    Real.sin_sq_le_one _
  have hcc : 0 ≤ Real.cos (radians p.latitude) * Real.cos (radians q.latitude) :=
    mul_nonneg hp hq
  have hmul : Real.cos (radians p.latitude) * Real.cos (radians q.latitude) *
      Real.sin (radians (q.longitude - p.longitude) / 2) ^ 2 ≤
      Real.cos (radians p.latitude) * Real.cos (radians q.latitude) := by
    calc Real.cos (radians p.latitude) * Real.cos (radians q.latitude) *
        Real.sin (radians (q.longitude - p.longitude) / 2) ^ 2
        ≤ Real.cos (radians p.latitude) * Real.cos (radians q.latitude) * 1 :=
          mul_le_mul_of_nonneg_left hs1 hcc
      _ = Real.cos (radians p.latitude) * Real.cos (radians q.latitude) := mul_one _
  have hcos_sub := Real.cos_sub (radians q.latitude) (radians p.latitude)
  have hcos_add := Real.cos_add (radians q.latitude) (radians p.latitude)
  have hone : Real.cos (radians q.latitude + radians p.latitude) ≤ 1 := Real.cos_le_one _
  linarith

theorem haversine_a_ge_lat (p q : Coordinates ℝ)
    (hcc : 0 ≤ Real.cos (radians p.latitude) * Real.cos (radians q.latitude)) :
    Real.sin (radians (q.latitude - p.latitude) / 2) ^ 2 ≤ haversine_a p q := by
  unfold haversine_a
  have := mul_nonneg hcc (sq_nonneg (Real.sin (radians (q.longitude - p.longitude) / 2)))
  linarith

/-- If two points both have latitude in `[-90, 90]` and their latitudes differ
by at least 20 degrees (and at most 180), the haversine distance exceeds
200 km (it is at least `6371 * π / 9 ≈ 2223` km). -/
theorem haversine_far_of_lat_gap (p q : Coordinates ℝ)
    (hp : |p.latitude| ≤ 90) (hq : |q.latitude| ≤ 90)
    (hgap : 20 ≤ |q.latitude - p.latitude|) (hgap2 : |q.latitude - p.latitude| ≤ 180) :
    200 < haversine_distance p q := by
  have hπ := Real.pi_pos
  have hπ3 := Real.pi_gt_three
  have hcp := cos_radians_nonneg hp
  have hcq := cos_radians_nonneg hq
  have h0 : 0 ≤ haversine_a p q := haversine_a_nonneg_of_cos p q (mul_nonneg hcp hcq)
  have h1 : haversine_a p q ≤ 1 := haversine_a_le_one p q hcp hcq
  have habs : |radians (q.latitude - p.latitude)| =
      |q.latitude - p.latitude| * Real.pi / 180 := by
    unfold radians
    rw [abs_div, abs_mul, abs_of_pos hπ, abs_of_pos (by norm_num : (0:ℝ) < 180)]
  have hgapπ : 20 * Real.pi ≤ |q.latitude - p.latitude| * Real.pi :=
    mul_le_mul_of_nonneg_right hgap (le_of_lt hπ)
  have hgap2π : |q.latitude - p.latitude| * Real.pi ≤ 180 * Real.pi :=
    mul_le_mul_of_nonneg_right hgap2 (le_of_lt hπ)
  have hθlo : Real.pi / 9 ≤ |radians (q.latitude - p.latitude)| := by
    rw [habs]; linarith
  have hθhi : |radians (q.latitude - p.latitude)| ≤ Real.pi := by
    rw [habs]; linarith
  have habs2 : |radians (q.latitude - p.latitude) / 2| =
      |radians (q.latitude - p.latitude)| / 2 := by
    rw [abs_div, abs_two]
  have hθlo' : Real.pi / 18 ≤ |radians (q.latitude - p.latitude) / 2| := by
    rw [habs2]; linarith
  have hθhi' : |radians (q.latitude - p.latitude) / 2| ≤ Real.pi / 2 := by
    rw [habs2]; linarith
  have hθabs : |Real.sin (radians (q.latitude - p.latitude) / 2)| =
      Real.sin |radians (q.latitude - p.latitude) / 2| :=
    abs_sin_eq_sin_abs (le_trans hθhi' (by linarith))
  have hsin_nonneg : 0 ≤ Real.sin |radians (q.latitude - p.latitude) / 2| :=
    Real.sin_nonneg_of_nonneg_of_le_pi (abs_nonneg _) (le_trans hθhi' (by linarith))
  have hsq : Real.sin |radians (q.latitude - p.latitude) / 2| ^ 2 ≤ haversine_a p q := by
    rw [← hθabs, sq_abs]
    exact haversine_a_ge_lat p q (mul_nonneg hcp hcq)
  have hsqrt : Real.sin |radians (q.latitude - p.latitude) / 2| ≤
      Real.sqrt (haversine_a p q) := by
    calc Real.sin |radians (q.latitude - p.latitude) / 2|
        = Real.sqrt (Real.sin |radians (q.latitude - p.latitude) / 2| ^ 2) :=
          (Real.sqrt_sq hsin_nonneg).symm
      _ ≤ Real.sqrt (haversine_a p q) := Real.sqrt_le_sqrt hsq
  have harcsin : Real.pi / 18 ≤ Real.arcsin (Real.sqrt (haversine_a p q)) := by
    have h2 : Real.arcsin (Real.sin |radians (q.latitude - p.latitude) / 2|) =
        |radians (q.latitude - p.latitude) / 2| :=
      Real.arcsin_sin (by linarith [abs_nonneg (radians (q.latitude - p.latitude) / 2)])
        hθhi'
    have h3 := Real.monotone_arcsin hsqrt
    rw [h2] at h3
    linarith
  have hdist : haversine_distance p q =
      6371.0 * (2 * Real.arcsin (Real.sqrt (haversine_a p q))) := by
    rw [haversine_eq_angular p q h0 h1]
    rfl
  rw [hdist]
  nlinarith

theorem KNOWN_AIRPORTS_lat_bounds :
    ∀ e ∈ KNOWN_AIRPORTS, (-38 : ℚ) ≤ e.lat ∧ e.lat ≤ 90 := by
  intro e he
  fin_cases he <;> exact ⟨by norm_num, by norm_num⟩

/-! ## C3 counterexample: the 50 km early return skips a nearer candidate -/

def cex3_loc : Coordinates ℝ := ⟨-60, 150⟩

noncomputable def cex3_far : GeoResult :=
  ⟨"Alpha International Airport", "Alpha International Airport, Southern Ocean",
    ⟨-60.3, 150⟩, ["poi"]⟩

noncomputable def cex3_near : GeoResult :=
  ⟨"Beta International Airport", "Beta International Airport, Southern Ocean",
    ⟨-60.1, 150⟩, ["poi"]⟩

noncomputable def cex3_geocode : String → List GeoResult := fun _ => [cex3_far, cex3_near]

/-- Spec-modelled (claim C3 wording): the combined candidate pool — the
curated nearest (if any) together with every geocoded result that passes the
airport filter and lies within the 200 km radius, paired with its distance. -/
noncomputable def spec_airport_candidates (geocode : String → List GeoResult)
    (location : Coordinates ℝ) (location_name : String) : List (Hub ℝ) :=
  (match find_nearest_known_airport location with
   | some ka => [ka]
   | none => []) ++
  (((airport_search_queries location_name).foldr (fun q acc => geocode q ++ acc) []).filter
      (fun r => is_actual_airport r.name r.full_name)).filterMap
    (fun r =>
      if haversine_distance location r.coordinates ≤ MAX_AIRPORT_DISTANCE then
        some (geo_hub (r, haversine_distance location r.coordinates))
      else none)

/-- Spec-modelled (claim C3 wording): of the combined candidates, whichever is
nearest to the query point is returned, nothing when none is within radius. -/
noncomputable def spec_airport_nearest_combined (geocode : String → List GeoResult)
    (location : Coordinates ℝ) (location_name : String) : Option (Hub ℝ) :=
  python_min (fun h => h.distance_km) (spec_airport_candidates geocode location location_name)

theorem cex3_far_actual : is_actual_airport cex3_far.name cex3_far.full_name = true := by
  decide

theorem cex3_near_actual : is_actual_airport cex3_near.name cex3_near.full_name = true := by
  decide

theorem cex3_far_dist :
    haversine_distance cex3_loc cex3_far.coordinates = 6371.0 * (0.3 * Real.pi / 180) := by
  have hπ := Real.pi_pos
  have h1 : ((-60.3 : ℝ)) - (-60) = -(0.3) := by norm_num
  have hb : |radians ((-60.3 : ℝ) - (-60))| = 0.3 * Real.pi / 180 := by
    rw [h1]
    unfold radians
    rw [show (-(0.3:ℝ)) * Real.pi / 180 = -(0.3 * Real.pi / 180) by ring, abs_neg,
      abs_of_pos (by positivity)]
  have hle : |radians ((-60.3 : ℝ) - (-60))| ≤ Real.pi := by
    rw [hb]
    linarith
  have h := haversine_distance_same_lon (-60) (-60.3) 150 hle
  show haversine_distance ⟨-60, 150⟩ ⟨-60.3, 150⟩ = 6371.0 * (0.3 * Real.pi / 180)
  rw [h, hb]

theorem cex3_near_dist :
    haversine_distance cex3_loc cex3_near.coordinates = 6371.0 * (0.1 * Real.pi / 180) := by
  have hπ := Real.pi_pos
  have h1 : ((-60.1 : ℝ)) - (-60) = -(0.1) := by norm_num
  have hb : |radians ((-60.1 : ℝ) - (-60))| = 0.1 * Real.pi / 180 := by
    rw [h1]
    unfold radians
    rw [show (-(0.1:ℝ)) * Real.pi / 180 = -(0.1 * Real.pi / 180) by ring, abs_neg,
      abs_of_pos (by positivity)]
  have hle : |radians ((-60.1 : ℝ) - (-60))| ≤ Real.pi := by
    rw [hb]
    linarith
  have h := haversine_distance_same_lon (-60) (-60.1) 150 hle
  show haversine_distance ⟨-60, 150⟩ ⟨-60.1, 150⟩ = 6371.0 * (0.1 * Real.pi / 180)
  rw [h, hb]

theorem cex3_far_200 :
    haversine_distance cex3_loc cex3_far.coordinates ≤ MAX_AIRPORT_DISTANCE := by
  rw [cex3_far_dist, show MAX_AIRPORT_DISTANCE = (200:ℝ) by norm_num [MAX_AIRPORT_DISTANCE]]
  linarith [Real.pi_lt_d2, Real.pi_pos]

theorem cex3_far_50 : haversine_distance cex3_loc cex3_far.coordinates < 50 := by
  rw [cex3_far_dist]
  linarith [Real.pi_lt_d2, Real.pi_pos]

theorem cex3_near_200 :
    haversine_distance cex3_loc cex3_near.coordinates ≤ MAX_AIRPORT_DISTANCE := by
  rw [cex3_near_dist, show MAX_AIRPORT_DISTANCE = (200:ℝ) by norm_num [MAX_AIRPORT_DISTANCE]]
  linarith [Real.pi_lt_d2, Real.pi_pos]

theorem cex3_near_lt_far : haversine_distance cex3_loc cex3_near.coordinates <
    haversine_distance cex3_loc cex3_far.coordinates := by
  rw [cex3_far_dist, cex3_near_dist]
  linarith [Real.pi_pos]

theorem cex3_known_none : find_nearest_known_airport cex3_loc = none := by
  apply (find_nearest_known_airport_none_iff cex3_loc).mpr
  intro e he
  obtain ⟨hb1, hb2⟩ := KNOWN_AIRPORTS_lat_bounds e he
  have hl1 : (-38 : ℝ) ≤ (e.lat : ℝ) := by exact_mod_cast hb1
  have hl2 : (e.lat : ℝ) ≤ 90 := by exact_mod_cast hb2
  rw [show MAX_AIRPORT_DISTANCE = (200:ℝ) by norm_num [MAX_AIRPORT_DISTANCE]]
  apply haversine_far_of_lat_gap
  · show |(-60 : ℝ)| ≤ 90
    norm_num
  · show |(e.lat : ℝ)| ≤ 90
    rw [abs_le]
    exact ⟨by linarith, hl2⟩
  · show (20 : ℝ) ≤ |(e.lat : ℝ) - (-60)|
    rw [abs_of_pos (by linarith)]
    linarith
  · show |(e.lat : ℝ) - (-60)| ≤ 180
    rw [abs_of_pos (by linarith)]
    linarith

theorem cex3_scan : airport_scan_queries cex3_loc cex3_geocode
    (airport_search_queries "Nowhere") none
    = .inr (cex3_far, haversine_distance cex3_loc cex3_far.coordinates) := by
  have hres : ∀ q, airport_scan_results cex3_loc (cex3_geocode q) none
      = .inr (cex3_far, haversine_distance cex3_loc cex3_far.coordinates) := by
    intro q
    show airport_scan_results cex3_loc [cex3_far, cex3_near] none = _
    simp only [airport_scan_results]
    rw [if_pos cex3_far_actual, if_pos cex3_far_200, if_pos cex3_far_50]
  simp only [airport_search_queries, airport_scan_queries, hres]

theorem cex3_code_result : find_nearest_airport cex3_geocode cex3_loc "Nowhere"
    = some (geo_hub (cex3_far, haversine_distance cex3_loc cex3_far.coordinates)) := by
  simp only [find_nearest_airport, cex3_known_none, cex3_scan]

theorem cex3_spec_result : spec_airport_nearest_combined cex3_geocode cex3_loc "Nowhere"
    = some (geo_hub (cex3_near, haversine_distance cex3_loc cex3_near.coordinates)) := by
  have hnf : ¬ haversine_distance cex3_loc cex3_near.coordinates <
      haversine_distance cex3_loc cex3_near.coordinates := lt_irrefl _
  have hfn : ¬ haversine_distance cex3_loc cex3_far.coordinates <
      haversine_distance cex3_loc cex3_near.coordinates :=
    not_lt.mpr (le_of_lt cex3_near_lt_far)
  unfold spec_airport_nearest_combined spec_airport_candidates
  simp only [cex3_known_none, airport_search_queries, List.foldr, cex3_geocode,
    List.cons_append, List.nil_append, List.append_nil]
  simp only [List.filter, cex3_far_actual, cex3_near_actual]
  simp only [List.filterMap, if_pos cex3_far_200, if_pos cex3_near_200]
  simp only [python_min, List.foldl, geo_hub]
  simp only [if_pos cex3_near_lt_far, if_neg hfn, if_neg hnf]

/-- C3 counterexample: querying at `(-60, 150)` (no curated airport within
200 km) with a geocoder whose single response lists an accepted candidate
about 33 km away ("Alpha") before one about 11 km away ("Beta"): the first
candidate is within 50 km, so the scan returns it immediately and the
resolver answers "Alpha", although the claimed combined-nearest policy
answers with the strictly nearer "Beta". -/
theorem C3_airport_resolver_counterexample :
    find_nearest_airport cex3_geocode cex3_loc "Nowhere"
      = some (geo_hub (cex3_far, haversine_distance cex3_loc cex3_far.coordinates)) ∧
    spec_airport_nearest_combined cex3_geocode cex3_loc "Nowhere"
      = some (geo_hub (cex3_near, haversine_distance cex3_loc cex3_near.coordinates)) ∧
    haversine_distance cex3_loc cex3_near.coordinates <
      haversine_distance cex3_loc cex3_far.coordinates ∧
    (geo_hub (cex3_far, haversine_distance cex3_loc cex3_far.coordinates)).name
      = "Alpha International Airport" ∧
    (geo_hub (cex3_near, haversine_distance cex3_loc cex3_near.coordinates)).name
      = "Beta International Airport" :=
  ⟨cex3_code_result, cex3_spec_result, cex3_near_lt_far, rfl, rfl⟩

end CarbonCalc
